import Mathlib

/-!
Verification development for the CSV analysis agent repository.

The Python sources under `src/` are shallowly embedded: pure functions become
Lean functions, stateful classes become structures with explicit state
passing, and the external services (the pandas dataframe engine, the
filesystem, the LLM) are modelled by explicit data or oracle parameters.
All definitions are executable.
-/

/-! ## String helpers modelling the Python `str` operations used by the code -/

/-- `listLeadsWith needle hay` : does `hay` start with `needle`? -/
def listLeadsWith : List Char → List Char → Bool
  | [], _ => true
  | _ :: _, [] => false
  | a :: as, b :: bs => a == b && listLeadsWith as bs

/-- Substring test on character lists (Python's `needle in hay`). -/
def listHasSub (needle : List Char) : List Char → Bool
  | [] => listLeadsWith needle []
  | c :: t => listLeadsWith needle (c :: t) || listHasSub needle t

/-- Python `needle in hay` on strings. -/
def strContainsB (hay needle : String) : Bool := listHasSub needle.toList hay.toList

/-- Python `s.endswith(suf)`. -/
def strEndsWithB (s suf : String) : Bool := listLeadsWith suf.toList.reverse s.toList.reverse

/-- Python `s.lower()` (ASCII-adequate model). -/
def pyLower (s : String) : String := String.mk (s.toList.map Char.toLower)

/-- Python `s.strip()`: drop leading and trailing whitespace. -/
def pyStrip (s : String) : String :=
  String.mk (((s.toList.dropWhile Char.isWhitespace).reverse.dropWhile Char.isWhitespace).reverse)

/-- Helper for `splitOnChar`, accumulating the current piece in reverse. -/
def splitOnCharAux (sep : Char) (cur : List Char) : List Char → List String
  | [] => [String.mk cur.reverse]
  | c :: t =>
    if c == sep then String.mk cur.reverse :: splitOnCharAux sep [] t
    else splitOnCharAux sep (c :: cur) t

/-- Python `s.split(sep)` for a one-character separator (e.g. `','`). -/
def splitOnChar (sep : Char) (s : String) : List String := splitOnCharAux sep [] s.toList

/-- Helper for `pyWords`: split on whitespace runs, dropping empty pieces. -/
def pyWordsAux (cur : List Char) : List Char → List String
  | [] => if cur.isEmpty then [] else [String.mk cur.reverse]
  | c :: t =>
    if c.isWhitespace then
      (if cur.isEmpty then pyWordsAux [] t else String.mk cur.reverse :: pyWordsAux [] t)
    else pyWordsAux (c :: cur) t

/-- Python `s.split()` (no argument): whitespace-separated words. -/
def pyWords (s : String) : List String := pyWordsAux [] s.toList

/-- Python `', '.join(xs)`. -/
def commaJoin (xs : List String) : String := String.intercalate ", " xs

/-- Python `repr` of a list of strings, as produced by an f-string on
`list(df.columns)`: `['a', 'b']`. -/
def pyColsRepr (cols : List String) : String :=
  "[" ++ String.intercalate ", " (cols.map (fun c => "'" ++ c ++ "'")) ++ "]"

/-! ## Cell values and dataframes (model of the pandas objects the code manipulates)

A cell is an integer, a piece of text, or a missing value (`NaN`).  Floating
point cell contents are not modelled; every numeric example in this
development uses integers, for which pandas arithmetic and formatting are
exact. -/

/-- A dataframe cell value. -/
inductive Value where
  | int (i : Int)
  | str (s : String)
  | null
deriving DecidableEq

/-- Is the cell a missing value? -/
def Value.isNull : Value → Bool
  | .null => true
  | _ => false

/-- Is the cell an integer? -/
def Value.isIntV : Value → Bool
  | .int _ => true
  | _ => false

/-- Integer content, when present. -/
def Value.toIntV : Value → Option Int
  | .int i => some i
  | _ => none

/-- Python `str(v)` of a cell (model; `NaN` renders as "nan"). -/
def Value.render : Value → String
  | .int i => toString i
  | .str s => s
  | .null => "nan"

/-- Strict comparison on code points for character lists (Python string `<`). -/
def listLtB : List Char → List Char → Bool
  | [], [] => false
  | [], _ :: _ => true
  | _ :: _, [] => false
  | a :: as, b :: bs =>
    if a.toNat < b.toNat then true
    else if b.toNat < a.toNat then false
    else listLtB as bs

/-- Strict order on cell values used by the sorting model: integers by
numeric order, strings lexicographically; across kinds a fixed arbitrary
order (never exercised on a homogeneous column). -/
def Value.ltB : Value → Value → Bool
  | .null, .null => false
  | .null, .int _ => true
  | .null, .str _ => true
  | .int _, .null => false
  | .int i, .int j => decide (i < j)
  | .int _, .str _ => true
  | .str _, .null => false
  | .str _, .int _ => false
  | .str a, .str b => listLtB a.toList b.toList

/-- An in-memory table: ordered column names and rows of cells. -/
structure DataFrame where
  cols : List String
  rows : List (List Value)
deriving DecidableEq

/-- Position of a column (`df.columns.get_loc`, via `List.indexOf`). -/
def DataFrame.colIdx (df : DataFrame) (c : String) : Nat := df.cols.indexOf c

/-- The cell of row `r` in column `c`. -/
def DataFrame.rowCells (df : DataFrame) (r : List Value) (c : String) : Value :=
  r.getD (df.colIdx c) Value.null

/-- The column `c` as a series of cells (`df[c]`). -/
def DataFrame.columnValues (df : DataFrame) (c : String) : List Value :=
  df.rows.map (fun r => df.rowCells r c)

/-- pandas `is_numeric_dtype` model: a series is numeric when every cell is
an integer or a missing value. -/
def isNumericSeries (vals : List Value) : Bool :=
  vals.all (fun v => v.isIntV || v.isNull)

/-- pandas dtype string for a series of this value model: all integers →
`int64`; integers with missing values → `float64`; otherwise `object`. -/
def seriesDtype (vals : List Value) : String :=
  if vals.all (fun v => v.isIntV) then "int64"
  else if vals.all (fun v => v.isIntV || v.isNull) then "float64"
  else "object"

/-- First-occurrence deduplication (pandas `Series.unique` order), with an
accumulator of already-seen values. -/
def firstDedup (seen : List Value) : List Value → List Value
  | [] => []
  | v :: t => if seen.contains v then firstDedup seen t else v :: firstDedup (v :: seen) t

/-- The non-missing cells of a series (`series.dropna()`). -/
def nonNullCells (vals : List Value) : List Value := vals.filter (fun v => !v.isNull)

/-- pandas `Series.nunique()`: number of distinct non-missing values. -/
def seriesNunique (vals : List Value) : Nat := (firstDedup [] (nonNullCells vals)).length

/-- pandas `Series.min()` over the integer cells (missing values skipped);
0 on an empty series (where pandas would yield `NaN`, a case no theorem
exercises). -/
def seriesMinInt (vals : List Value) : Int :=
  match vals.filterMap Value.toIntV with
  | [] => 0
  | h :: t => t.foldl min h

/-- pandas `Series.max()` over the integer cells, as `seriesMinInt`. -/
def seriesMaxInt (vals : List Value) : Int :=
  match vals.filterMap Value.toIntV with
  | [] => 0
  | h :: t => t.foldl max h

/-- Python `f"{x:.2f}"` for an integer-valued quantity. -/
def formatFloat2 (i : Int) : String := toString i ++ ".00"

/-- pandas `Series.isnull().sum()`. -/
def seriesNullCount (vals : List Value) : Nat := vals.countP (fun v => v.isNull)

/-! ## Schemas (`src/models/schemas.py`) -/

/-- Classification of column types for analytics (`ColumnType`). -/
inductive ColumnType where
  | measure
  | dimension
deriving DecidableEq

/-- Schema for LLM column analysis results (`ColumnAnalysisResult`). -/
structure ColumnAnalysisResult where
  description : String
  column_type : ColumnType
  rationale : String

/-- Schema for column information (`ColumnInfo`). -/
structure ColumnInfo where
  name : String
  dtype : String
  null_count : Nat
  unique_count : Nat
  sample_values : List Value
  description : String
  column_type : ColumnType
deriving DecidableEq

/-- Schema for dataset metadata (`DatasetMetadata`).  The engine-reported
in-memory byte count (`memory_usage`) is external to this embedding and
omitted. -/
structure DatasetMetadata where
  file_path : String
  file_name : String
  shape : Nat × Nat
  columns : List String
  dtypes : List (String × String)
  null_counts : List (String × Nat)
  sample_data : List (List (String × Value))
deriving DecidableEq

/-- Schema for query-scope classification (`CSVQuestionClassification`). -/
structure CSVQuestionClassification where
  is_csv_related : Bool
  reasoning : String

/-- Schema for query responses (`QueryResponse`); metadata entries are
modelled as key/value string pairs, the timestamp as an abstract tick. -/
structure QueryResponse where
  answer : String
  is_csv_related : Bool
  used_tools : List String
  metadata : Option (List (String × String))
  timestamp : Nat

/-! ## CSV loader, superseding design (`src/data_io/csv_loader.py`) -/

/-- Configuration for CSV loading (`CSVLoaderConfig`). -/
structure CSVLoaderConfig where
  max_file_size_mb : ℚ := 100
  encoding : String := "utf-8"
  delimiter : String := ","
  enable_type_inference : Bool := true
  sample_size_for_inference : Nat := 1000

/-- The filesystem and parsing engine at the loader's boundary: whether a
path exists, its byte size, and the outcome of `pd.read_csv` on it. -/
structure FileSystem where
  present : String → Bool
  sizeBytes : String → Nat
  parse : String → Except String DataFrame

/-- The enhanced CSV loader (`CSVLoader`).  The optional LLM is an oracle
producing a structured column analysis from the column name and series (the
prompt text built by the source is serialization of exactly these inputs);
`Except.error` models an exception raised by the LLM call. -/
structure CSVLoader where
  config : CSVLoaderConfig := {}
  llm : Option (String → List Value → Except String ColumnAnalysisResult) := none
  dataframe : Option DataFrame := none
  file_path : Option String := none
  metadata : Option DatasetMetadata := none

/-- `CSVLoader.is_loaded`. -/
def CSVLoader.is_loaded (loader : CSVLoader) : Bool := loader.dataframe.isSome

/-- `CSVLoader._validate_file`: returns the raised error message, if any.
The order of checks mirrors the source: existence, `.csv` extension
(case-insensitive), then size against the configured maximum.  (The exact
diagnostic text is printed and swallowed by `load_csv`, so the size message
is abbreviated here.) -/
def CSVLoader.validate_file (cfg : CSVLoaderConfig) (fs : FileSystem) (file_path : String) :
    Option String :=
  if fs.present file_path = false then some ("File not found: " ++ file_path)
  else if strEndsWithB (pyLower file_path) ".csv" = false then
    some "File must have .csv extension"
  else if ((fs.sizeBytes file_path : ℚ) / (1024 * 1024)) > cfg.max_file_size_mb then
    some "File too large"
  else none

/-- Python `Path(file_path).name`: the last `/`-separated component. -/
def pathName (p : String) : String := (splitOnChar '/' p).getLastD p

/-- `CSVLoader._generate_metadata`, computed from the parsed dataframe. -/
def CSVLoader.generate_metadata (df : DataFrame) (file_path : String) : DatasetMetadata :=
  { file_path := file_path
    file_name := pathName file_path
    shape := (df.rows.length, df.cols.length)
    columns := df.cols
    dtypes := df.cols.map (fun c => (c, seriesDtype (df.columnValues c)))
    null_counts := df.cols.map (fun c => (c, seriesNullCount (df.columnValues c)))
    sample_data := (df.rows.take 3).map (fun r => df.cols.zip r) }

/-- `CSVLoader.load_csv`: validate, parse, then store dataframe, path and
metadata; any failure is caught, printed, and reported as `false` with the
loader state untouched.  Caller-supplied `read_csv` keyword overrides are
absorbed into the parse oracle. -/
def CSVLoader.load_csv (loader : CSVLoader) (fs : FileSystem) (file_path : String) :
    CSVLoader × Bool :=
  match CSVLoader.validate_file loader.config fs file_path with
  | some _ => (loader, false)
  | none =>
    match fs.parse file_path with
    | .error _ => (loader, false)
    | .ok df =>
      ({ loader with
          dataframe := some df
          file_path := some file_path
          metadata := some (CSVLoader.generate_metadata df file_path) }, true)

/-- `CSVLoader._analyze_column_with_llm`: delegate to the LLM when attached
(falling back with a synthetic description on an LLM failure); otherwise the
simple heuristic — MEASURE iff the series is numeric and the lower-cased
name does not end in "id". -/
def CSVLoader.analyze_column_with_llm (loader : CSVLoader) (column_name : String)
    (series : List Value) : String × ColumnType × String :=
  match loader.llm with
  | some oracle =>
    match oracle column_name series with
    | .ok r => (r.description, r.column_type, r.rationale)
    | .error _ =>
      let description := "Column '" ++ column_name ++ "' - " ++ seriesDtype series ++ " type"
      if isNumericSeries series && !strEndsWithB (pyLower column_name) "id" then
        (description, .measure, "Numeric field suitable for aggregation")
      else
        (description, .dimension, "Categorical field suitable for grouping")
  | none =>
    if isNumericSeries series && !strEndsWithB (pyLower column_name) "id" then
      ("Numeric column (range: " ++ formatFloat2 (seriesMinInt series) ++ " to " ++
        formatFloat2 (seriesMaxInt series) ++ ")",
       .measure, "Numeric field suitable for aggregation")
    else
      ("Text column with " ++ toString (seriesNunique series) ++ " unique values",
       .dimension, "Categorical field suitable for grouping")

/-- `CSVLoader.get_column_info`. -/
def CSVLoader.get_column_info (loader : CSVLoader) (column_name : String) : Option ColumnInfo :=
  match loader.dataframe with
  | none => none
  | some df =>
    if column_name ∉ df.cols then none
    else
      let series := df.columnValues column_name
      let a := loader.analyze_column_with_llm column_name series
      some { name := column_name
             dtype := seriesDtype series
             null_count := seriesNullCount series
             unique_count := seriesNunique series
             sample_values := (firstDedup [] (nonNullCells series)).take 10
             description := a.1
             column_type := a.2.1 }

/-! ## Legacy flat loader (`src/csv_loader.py`), description heuristic -/

/-- Legacy `CSVLoader._infer_column_description`: keyword pattern matching on
the lower-cased column name, then type-based fallbacks.  The `< 10%` unique
ratio comparison is exact rational arithmetic here (the source compares in
floating point; the boundary is not exercised by any theorem). -/
def LegacyCSVLoader.infer_column_description (column_name : String) (series : List Value) :
    String :=
  let name_lower := pyLower column_name
  if ["id", "_id", "identifier"].any (fun k => strContainsB name_lower k) then
    "Unique identifier column"
  else if ["name", "title"].any (fun k => strContainsB name_lower k) then
    "Name/title column containing text values"
  else if ["date", "time"].any (fun k => strContainsB name_lower k) then
    "Date/time column"
  else if ["email"].any (fun k => strContainsB name_lower k) then
    "Email address column"
  else if ["price", "cost", "amount"].any (fun k => strContainsB name_lower k) then
    "Monetary value column"
  else if ["age"].any (fun k => strContainsB name_lower k) then
    "Age column (numeric)"
  else if seriesDtype series = "object" then
    (if (seriesNunique series : ℚ) < (series.length : ℚ) * (1 / 10) then
      "Categorical column with " ++ toString (seriesNunique series) ++ " unique values"
    else "Text column")
  else if isNumericSeries series then
    "Numeric column (range: " ++ formatFloat2 (seriesMinInt series) ++ " to " ++
      formatFloat2 (seriesMaxInt series) ++ ")"
  else
    "Column of type " ++ seriesDtype series

/-! ## Conversation memory (`src/core/memory_manager.py`) -/

/-- Configuration for memory settings (`MemoryConfig`); the memory-kind enum
is irrelevant to the buffer implementation and omitted. -/
structure MemoryConfig where
  max_token_limit : Nat := 4000
  max_interactions : Nat := 30
  enable_summarization : Bool := false

/-- Schema for conversation entries (`ConversationEntry`); timestamps are
abstract ticks, metadata key/value string pairs. -/
structure ConversationEntry where
  timestamp : Nat
  human_message : String
  ai_response : String
  metadata : List (String × String)
deriving DecidableEq

/-- One message of the LangChain chat-history object. -/
inductive ChatMessage where
  | human (content : String)
  | ai (content : String)
deriving DecidableEq

/-- The text content of a chat message. -/
def ChatMessage.content : ChatMessage → String
  | .human c => c
  | .ai c => c

/-- The buffer-based memory manager (`BufferMemoryManager`): semantic entry
list, session metadata fields, and the LangChain chat-history message
list. -/
structure BufferMemoryManager where
  config : MemoryConfig
  conversation_history : List ConversationEntry := []
  question_count : Nat := 0
  csv_file : Option String := none
  csv_summary : Option String := none
  chat_memory : List ChatMessage := []

/-- Python `l[-n:]`: the most recent `n` elements. -/
def takeLast {α : Type} (n : Nat) (l : List α) : List α := l.drop (l.length - n)

/-- The user/assistant message pair an entry mirrors into the chat history. -/
def entryMessages (e : ConversationEntry) : List ChatMessage :=
  [.human e.human_message, .ai e.ai_response]

/-- `BufferMemoryManager._rebuild_langchain_memory`: clear the chat history
and re-add the message pairs of the last 10 entries. -/
def BufferMemoryManager.rebuild_langchain_memory (mem : BufferMemoryManager) :
    BufferMemoryManager :=
  { mem with chat_memory := (takeLast 10 mem.conversation_history).flatMap entryMessages }

/-- `BufferMemoryManager._manage_memory_size`: when the entry count exceeds
the configured maximum, drop the oldest entries down to the limit and
rebuild the chat history. -/
def BufferMemoryManager.manage_memory_size (mem : BufferMemoryManager) : BufferMemoryManager :=
  if mem.conversation_history.length > mem.config.max_interactions then
    let removed_count := mem.conversation_history.length - mem.config.max_interactions
    BufferMemoryManager.rebuild_langchain_memory
      { mem with conversation_history := mem.conversation_history.drop removed_count }
  else mem

/-- `BufferMemoryManager.add_interaction`: append the entry, mirror the pair
into the chat history, bump the question count, then enforce retention. -/
def BufferMemoryManager.add_interaction (mem : BufferMemoryManager) (now : Nat)
    (human_message ai_response : String) (metadata : List (String × String)) :
    BufferMemoryManager :=
  BufferMemoryManager.manage_memory_size
    { mem with
        conversation_history :=
          mem.conversation_history ++
            [{ timestamp := now, human_message, ai_response, metadata }]
        chat_memory := mem.chat_memory ++ [.human human_message, .ai ai_response]
        question_count := mem.question_count + 1 }

/-- The synthetic context message injected by `set_csv_context`. -/
def csvContextMessage (csv_file csv_summary : String) : String :=
  "Analyzing CSV file: " ++ csv_file ++ "\n\nData summary:\n" ++ csv_summary

/-- `BufferMemoryManager.set_csv_context`: record the file and summary and
append the synthetic assistant turn to the chat history. -/
def BufferMemoryManager.set_csv_context (mem : BufferMemoryManager)
    (csv_file csv_summary : String) : BufferMemoryManager :=
  { mem with
      csv_file := some csv_file
      csv_summary := some csv_summary
      chat_memory := mem.chat_memory ++ [.ai (csvContextMessage csv_file csv_summary)] }

/-- The fixed follow-up indicator substrings of `is_follow_up_question`. -/
def follow_up_indicators : List String :=
  ["also", "too", "and", "what about", "how about",
   "can you", "tell me more", "explain", "why",
   "that", "this", "it", "them", "those", "these"]

/-- `BufferMemoryManager.is_follow_up_question`. -/
def BufferMemoryManager.is_follow_up_question (mem : BufferMemoryManager) (question : String) :
    Bool :=
  if mem.conversation_history.isEmpty then false
  else
    let question_lower := pyLower question
    if follow_up_indicators.any (fun ind => strContainsB question_lower ind) then true
    else decide ((pyWords question).length < 5)

/-! ## Agent builder (`src/core/agent_builder.py`) -/

/-- The outcome of one run of the LangChain execution loop
(`AgentExecutor.invoke`): the optional final output, the tool name of each
intermediate step (empty when the step carries no tool), and an opaque
rendering of the raw response attached to response metadata. -/
structure ExecOutput where
  output : Option String
  steps : List String
  raw : String

/-- The state the `AgentBuilder.query` path reads and writes: the loader and
the memory manager.  The scope classifier and the execution loop are LLM
calls, passed as oracles to `query`. -/
structure AgentState where
  csv_loader : CSVLoader
  memory : BufferMemoryManager

/-- The pairing loop of `AgentBuilder.query` step 2 (`range(0, len, 2)`,
dropping an odd trailing message). -/
def chatPairs : List ChatMessage → List (ChatMessage × ChatMessage)
  | a :: b :: t => (a, b) :: chatPairs t
  | _ => []

/-- The "Human: …\nAssistant: …" transcript `AgentBuilder.query` hands the
scope classifier. -/
def buildConversationHistory (msgs : List ChatMessage) : String :=
  String.intercalate "\n\n"
    ((chatPairs msgs).map (fun p =>
      "Human: " ++ p.1.content ++ "\nAssistant: " ++ p.2.content))

/-- `AgentBuilder.query`: no-CSV short-circuit, scope classification,
execution, memory recording, and the exception-to-error-response guard.
`classifier` is the scope-classification LLM call, `executor` the execution
loop (`Except.error` modelling a raised exception). -/
def AgentBuilder.query (st : AgentState)
    (classifier : String → String → CSVQuestionClassification)
    (executor : String → List ChatMessage → Except String ExecOutput)
    (now : Nat) (question : String) : QueryResponse × AgentState :=
  if st.csv_loader.is_loaded = false then
    ({ answer := "No CSV file is currently loaded. Please load a CSV file first."
       is_csv_related := false
       used_tools := []
       metadata := none
       timestamp := now }, st)
  else
    let conversation_history := buildConversationHistory st.memory.chat_memory
    let classification := classifier question conversation_history
    if classification.is_csv_related = false then
      ({ answer := "I can only answer questions about the loaded CSV data. Please ask questions related to your dataset, such as asking about columns, statistics, or searching for specific data."
         is_csv_related := false
         used_tools := []
         metadata := some [("classification_reasoning", classification.reasoning)]
         timestamp := now }, st)
    else
      match executor question st.memory.chat_memory with
      | .ok response =>
        let answer := response.output.getD "I couldn't generate a response."
        let used_tools := response.steps.filter (fun t => t ≠ "")
        let memory' := st.memory.add_interaction now question answer
          [("used_tools", commaJoin used_tools),
           ("classification_reasoning", classification.reasoning)]
        ({ answer := answer
           is_csv_related := true
           used_tools := used_tools
           metadata := some [("classification_reasoning", classification.reasoning),
                             ("execution_metadata", response.raw)]
           timestamp := now }, { st with memory := memory' })
      | .error e =>
        ({ answer := "Error processing question: " ++ e
           is_csv_related := true
           used_tools := []
           metadata := some [("error", e)]
           timestamp := now }, st)

/-! ## Tool registry and analysis tools (`src/core/tool_manager.py`,
`src/models/config.py`) -/

/-- Configuration for tool settings (`ToolConfig`) with its default
enabled-tool allowlist. -/
structure ToolConfig where
  enabled_tools : List String :=
    ["get_data_summary", "get_column_info", "sort_data", "filter_data", "group_and_aggregate",
     "get_basic_stats", "get_analytics_classification", "list_measures", "list_dimensions"]
  max_search_results : Nat := 10
  enable_custom_tools : Bool := true

/-- The names of the tool instances `ToolManager._register_default_tools`
constructs, in construction order. -/
def registerDefaultToolNames : List String :=
  ["get_data_summary", "get_column_info", "sort_data", "filter_data", "group_and_aggregate",
   "get_basic_stats", "get_analytics_classification", "list_measures", "list_dimensions"]

/-- `ToolManager.get_available_tools` right after construction: the default
tool instances whose names pass the configured allowlist, in registration
order. -/
def ToolManager.availableTools (config : ToolConfig) : List String :=
  registerDefaultToolNames.filter (fun n => config.enabled_tools.contains n)

/-- Rendering model of pandas `DataFrame.to_string(index=False)`: a header
line then one line per row (fixed-width padding not modelled). -/
def renderRows (df : DataFrame) (rows : List (List Value)) : String :=
  String.intercalate "\n"
    (String.intercalate " " df.cols :: rows.map (fun r => String.intercalate " " (r.map Value.render)))

/-- Row comparison of pandas `sort_values(by=keys, ascending=flags)`: keys
with their ascending flag, compared lexicographically. -/
def rowLeB (df : DataFrame) : List (String × Bool) → List Value → List Value → Bool
  | [], _, _ => true
  | (c, asc) :: rest, r1, r2 =>
    let v1 := df.rowCells r1 c
    let v2 := df.rowCells r2 c
    if Value.ltB v1 v2 then asc
    else if Value.ltB v2 v1 then !asc
    else rowLeB df rest r1 r2

/-- `SortDataTool.execute`: parse and validate the sort columns and orders,
pad the orders with "asc", sort, cap the display at 50 rows, and add the
highest/lowest insight for a single numeric sort key.  The sorting engine is
modelled by `List.insertionSort` under `rowLeB`. -/
def SortDataTool.execute (loader : CSVLoader) (sort_columns : String)
    (sort_orders : String) : String :=
  match loader.dataframe with
  | none => "No CSV data is currently loaded. Please load a CSV file first."
  | some df =>
    if pyStrip sort_columns = "" then
      "Please provide columns to sort by (comma-separated list)."
    else
      let sort_cols := ((splitOnChar ',' sort_columns).map pyStrip).filter (fun c => c ≠ "")
      if sort_cols.isEmpty then "No valid sort columns provided."
      else
        let missing_cols := sort_cols.filter (fun c => decide (c ∉ df.cols))
        if missing_cols.isEmpty = false then
          "Sort columns not found: " ++ commaJoin missing_cols ++
            ". Available columns: " ++ commaJoin df.cols
        else
          let sort_order_list :=
            ((splitOnChar ',' sort_orders).map (fun o => pyLower (pyStrip o))).filter
              (fun o => o ≠ "")
          let invalid_orders :=
            sort_order_list.filter (fun o => o ≠ "asc" && o ≠ "desc")
          if invalid_orders.isEmpty = false then
            "Invalid sort orders: " ++ commaJoin invalid_orders ++ ". Use 'asc' or 'desc'."
          else
            let padded :=
              sort_order_list ++
                List.replicate (sort_cols.length - sort_order_list.length) "asc"
            let ascending_list := (padded.take sort_cols.length).map (fun o => o == "asc")
            let keys := sort_cols.zip ascending_list
            let sorted_df :=
              List.insertionSort (fun r1 r2 => rowLeB df keys r1 r2 = true) df.rows
            if sorted_df.isEmpty then "No data found after sorting."
            else
              let result_count := sorted_df.length
              let sort_desc :=
                (sort_cols.zip (padded.take sort_cols.length)).map
                  (fun p => p.1 ++ " (" ++ p.2 ++ ")")
              let base :=
                "Data sorted by: " ++ commaJoin sort_desc ++ "\n" ++
                  "Total rows: " ++ toString result_count ++ "\n\n"
              let body :=
                if result_count > 50 then
                  renderRows df (sorted_df.take 50) ++
                    "\n\n... and " ++ toString (result_count - 50) ++ " more rows."
                else renderRows df sorted_df
              let insight :=
                match sort_cols, padded with
                | [c], ord :: _ =>
                  if isNumericSeries (df.columnValues c) then
                    (if ord = "desc" then
                      "\n\nHighest " ++ c ++ ": " ++
                        (df.rowCells (sorted_df.headD []) c).render ++
                        "\nLowest " ++ c ++ ": " ++
                        (df.rowCells (sorted_df.getLastD []) c).render
                    else
                      "\n\nLowest " ++ c ++ ": " ++
                        (df.rowCells (sorted_df.headD []) c).render ++
                        "\nHighest " ++ c ++ ": " ++
                        (df.rowCells (sorted_df.getLastD []) c).render)
                  else ""
                | _, _ => ""
              base ++ body ++ insight

/-- pandas `Series.value_counts()`: frequency of each distinct non-missing
value, most frequent first (first-occurrence order among ties). -/
def valueCounts (vals : List Value) : List (Value × Nat) :=
  let nn := nonNullCells vals
  List.insertionSort (fun p q : Value × Nat => q.2 ≤ p.2)
    ((firstDedup [] nn).map (fun k => (k, nn.count k)))

/-- Rendering model of pandas `Series.to_string()` on a value-counts
series: one "value count" line per entry. -/
def renderCounts (vc : List (Value × Nat)) : String :=
  String.intercalate "\n" (vc.map (fun p => p.1.render ++ " " ++ toString p.2))

/-- `GetValueCountsTool.execute`. -/
def GetValueCountsTool.execute (loader : CSVLoader) (column_name : String) : String :=
  match loader.dataframe with
  | none => "No CSV data is currently loaded. Please load a CSV file first."
  | some df =>
    if column_name ∉ df.cols then
      "Column '" ++ column_name ++ "' not found. Available columns: " ++ commaJoin df.cols
    else
      let value_counts := valueCounts (df.columnValues column_name)
      if value_counts.length > 20 then
        "Top 20 values in '" ++ column_name ++ "' (out of " ++
          toString value_counts.length ++ " unique values):\n\n" ++
          renderCounts (value_counts.take 20)
      else
        "Value counts for '" ++ column_name ++ "':\n\n" ++ renderCounts value_counts

/-! ## Visualizer validation (`src/utils/visualizer.py`) -/

/-- Which of the four analysis handlers `analyze_and_plot` dispatches to. -/
inductive AnalysisKind where
  | distribution
  | sum
  | average
  | count
deriving DecidableEq

/-- The validation and dispatch logic of `CSVVisualizer.analyze_and_plot`
over the dataframe's column-name list; `Except.error` is a raised
`ValueError` with the source's message, `Except.ok` names the rendering
handler invoked (the matplotlib rendering itself is an external effect). -/
def CSVVisualizer.analyze_and_plot (cols : List String) (dimension measure : String)
    (analysis_type : String) : Except String AnalysisKind :=
  if analysis_type ≠ "distribution" ∧ analysis_type ≠ "count" ∧ dimension ∉ cols then
    .error ("Dimension '" ++ dimension ++ "' not found in dataframe columns: " ++
      pyColsRepr cols)
  else if analysis_type ≠ "count" ∧ measure ∉ cols then
    .error ("Measure '" ++ measure ++ "' not found in dataframe columns: " ++
      pyColsRepr cols)
  else if analysis_type = "count" ∧ dimension ∉ cols then
    .error ("Dimension '" ++ dimension ++ "' not found in dataframe columns: " ++
      pyColsRepr cols)
  else if analysis_type = "distribution" ∧ measure ∉ cols then
    .error ("Measure '" ++ measure ++ "' not found in dataframe columns: " ++
      pyColsRepr cols)
  else if analysis_type = "distribution" then .ok .distribution
  else if analysis_type = "sum" then .ok .sum
  else if analysis_type = "average" then .ok .average
  else if analysis_type = "count" then .ok .count
  else .error ("Unsupported analysis type: " ++ analysis_type)

/-! ## Concrete fixtures used by witnesses and counterexamples -/

/-- One recorded call to `add_interaction`, used to state frame properties
over arbitrary sequences of later interactions. -/
structure AddCall where
  now : Nat
  human_message : String
  ai_response : String
  metadata : List (String × String)

/-- Folding a list of interaction calls into a memory manager. -/
def applyAdds (mem : BufferMemoryManager) (adds : List AddCall) : BufferMemoryManager :=
  adds.foldl (fun acc x => acc.add_interaction x.now x.human_message x.ai_response x.metadata) mem


/-- A small employee table with a text and a numeric column. -/
def dfPeople : DataFrame :=
  { cols := ["name", "salary"]
    rows := [[.str "Ann", .int 50], [.str "Bob", .int 40], [.str "Cyd", .int 70]] }

/-- A filesystem holding exactly `/data/people.csv`, parsing to `dfPeople`. -/
def fsPeople : FileSystem :=
  { present := fun p => p == "/data/people.csv"
    sizeBytes := fun _ => 2048
    parse := fun p => if p == "/data/people.csv" then .ok dfPeople else .error "No such file" }

/-- A loader in the state a successful load of `/data/people.csv` leaves it. -/
def loaderPeople : CSVLoader :=
  { dataframe := some dfPeople
    file_path := some "/data/people.csv"
    metadata := some (CSVLoader.generate_metadata dfPeople "/data/people.csv") }

/-- A one-column numeric table whose column name ends in "id". -/
def dfEmployeeId : DataFrame :=
  { cols := ["employee_id"], rows := [[.int 1], [.int 2]] }

/-- A loader (no LLM attached) holding `dfEmployeeId`. -/
def loaderEmployeeId : CSVLoader := { dataframe := some dfEmployeeId }

/-- The column info the fallback heuristic computes for `employee_id`. -/
def ciEmployeeId : ColumnInfo :=
  { name := "employee_id"
    dtype := "int64"
    null_count := 0
    unique_count := 2
    sample_values := [.int 1, .int 2]
    description := "Text column with 2 unique values"
    column_type := .dimension }

/-- A one-column text table named `email`. -/
def dfEmail : DataFrame :=
  { cols := ["email"], rows := [[.str "x@a.com"], [.str "y@b.com"], [.str "z@c.com"]] }

/-- A loader (no LLM attached) holding `dfEmail`. -/
def loaderEmail : CSVLoader := { dataframe := some dfEmail }

/-- The column info the no-LLM superseding path computes for `email`. -/
def ciEmail : ColumnInfo :=
  { name := "email"
    dtype := "object"
    null_count := 0
    unique_count := 3
    sample_values := [.str "x@a.com", .str "y@b.com", .str "z@c.com"]
    description := "Text column with 3 unique values"
    column_type := .dimension }

/-- A memory manager with one stored interaction. -/
def memOne : BufferMemoryManager :=
  { config := {}
    conversation_history := [{ timestamp := 0, human_message := "How many rows?",
                               ai_response := "3 rows.", metadata := [] }]
    question_count := 1
    chat_memory := [.human "How many rows?", .ai "3 rows."] }

/-- A fresh memory manager with no history. -/
def memFresh : BufferMemoryManager := { config := {} }

/-- n synthetic conversation entries. -/
def entriesN (n : Nat) : List ConversationEntry :=
  (List.range n).map (fun i =>
    { timestamp := i, human_message := "q" ++ toString i,
      ai_response := "a" ++ toString i, metadata := [] })

/-- A memory manager at the default retention limit of 30 entries. -/
def memAtLimit : BufferMemoryManager :=
  { config := {}
    conversation_history := entriesN 30
    question_count := 30
    chat_memory := (entriesN 30).flatMap entryMessages }

/-- A scope classifier that rejects every question. -/
def classifierNo : String → String → CSVQuestionClassification :=
  fun _ _ => { is_csv_related := false, reasoning := "unrelated to the dataset" }

/-- A scope classifier that accepts every question. -/
def classifierYes : String → String → CSVQuestionClassification :=
  fun _ _ => { is_csv_related := true, reasoning := "about the dataset" }

/-- An execution-loop oracle returning a fixed answer. -/
def executorFixed : String → List ChatMessage → Except String ExecOutput :=
  fun _ _ => .ok { output := some "There are 3 rows.", steps := ["get_data_summary"], raw := "{}" }

/-- An agent state with no CSV loaded. -/
def stUnloaded : AgentState := { csv_loader := {}, memory := memFresh }

/-- An agent state with `dfPeople` loaded. -/
def stLoaded : AgentState := { csv_loader := loaderPeople, memory := memOne }

/-- A one-column text table with a repeated department value. -/
def dfDept : DataFrame :=
  { cols := ["dept"], rows := [[.str "Eng"], [.str "Sales"], [.str "Eng"]] }

/-- A loader holding `dfDept`. -/
def loaderDept : CSVLoader := { dataframe := some dfDept }

/-- A fresh memory manager configured to retain at most 2 interactions. -/
def memSmall : BufferMemoryManager := { config := { max_interactions := 2 } }

/-- `memSmall` after a CSV context injection and two interactions: at the
retention limit, with the synthetic context message still in the chat. -/
def memCtx : BufferMemoryManager :=
  ((memSmall.set_csv_context "people.csv" "3 rows").add_interaction 1 "q1" "a1"
    []).add_interaction 2 "q2" "a2" []

/-! ## Theorems for the claims -/

/-- C1: `CSVLoader.load_csv` (superseding design) never raises past its own
boundary; on a non-existent path, a non-`.csv` path (case-insensitive), a
file exceeding the configured maximum size, or a parse failure, it returns
`false` and leaves the loader state — dataframe, file path and metadata —
exactly as it was, so a previously loaded dataset stays accessible
unchanged. -/
theorem c1_load_csv_failure_preserves_state
    (loader : CSVLoader) (fs : FileSystem) (file_path : String)
    (hfail : fs.present file_path = false ∨
      strEndsWithB (pyLower file_path) ".csv" = false ∨
      ((fs.sizeBytes file_path : ℚ) / (1024 * 1024)) > loader.config.max_file_size_mb ∨
      (∃ e, fs.parse file_path = .error e)) :
    CSVLoader.load_csv loader fs file_path = (loader, false) ∧
    (CSVLoader.load_csv loader fs file_path).1.dataframe = loader.dataframe ∧
    (CSVLoader.load_csv loader fs file_path).1.file_path = loader.file_path ∧
    (CSVLoader.load_csv loader fs file_path).1.metadata = loader.metadata := by
  have key : CSVLoader.load_csv loader fs file_path = (loader, false) := by
    unfold CSVLoader.load_csv CSVLoader.validate_file
    by_cases h1 : fs.present file_path = false
    · simp [h1]
    · by_cases h2 : strEndsWithB (pyLower file_path) ".csv" = false
      · simp [h1, h2]
      · by_cases h3 :
          ((fs.sizeBytes file_path : ℚ) / (1024 * 1024)) > loader.config.max_file_size_mb
        · simp [h1, h2, h3]
        · rcases hfail with h | h | h | ⟨e, h⟩
          · exact absurd h h1
          · exact absurd h h2
          · exact absurd h h3
          · simp [h1, h2, h3, h]
  exact ⟨key, by rw [key], by rw [key], by rw [key]⟩

/-- C1 witness: a loader that successfully loaded `/data/people.csv`
attempts to load a missing path; the load reports `false` and the loader is
unchanged. -/
theorem c1_witness :
    fsPeople.present "/data/missing.csv" = false ∧
    (CSVLoader.load_csv loaderPeople fsPeople "/data/missing.csv" = (loaderPeople, false) ∧
    (CSVLoader.load_csv loaderPeople fsPeople "/data/missing.csv").1.dataframe =
      loaderPeople.dataframe ∧
    (CSVLoader.load_csv loaderPeople fsPeople "/data/missing.csv").1.file_path =
      loaderPeople.file_path ∧
    (CSVLoader.load_csv loaderPeople fsPeople "/data/missing.csv").1.metadata =
      loaderPeople.metadata) :=
  ⟨by decide,
   c1_load_csv_failure_preserves_state loaderPeople fsPeople "/data/missing.csv"
     (Or.inl (by decide))⟩

/-- C2: `AgentBuilder.query` short-circuits in exactly the two claimed
cases.  (a) With no CSV loaded it returns the fixed decline answer with
`is_csv_related = false` and no used tools — the result does not depend on
the classifier or executor oracles, so neither is consulted — and the
returned state is the input state, so the memory manager's stored
interactions and question count are unchanged.  (b) With a CSV loaded but
the classifier reporting the question out of scope, it returns the fixed
redirect answer with `is_csv_related = false`, no used tools, and the
classifier's reasoning in metadata; the executor oracle is irrelevant and
the state is again returned unchanged. -/
theorem c2_query_short_circuits :
    (∀ (st : AgentState) (classifier : String → String → CSVQuestionClassification)
       (executor : String → List ChatMessage → Except String ExecOutput)
       (now : Nat) (question : String),
       st.csv_loader.is_loaded = false →
       AgentBuilder.query st classifier executor now question =
         ({ answer := "No CSV file is currently loaded. Please load a CSV file first."
            is_csv_related := false
            used_tools := []
            metadata := none
            timestamp := now }, st)) ∧
    (∀ (st : AgentState) (classifier : String → String → CSVQuestionClassification)
       (executor : String → List ChatMessage → Except String ExecOutput)
       (now : Nat) (question : String),
       st.csv_loader.is_loaded = true →
       (classifier question (buildConversationHistory st.memory.chat_memory)).is_csv_related
         = false →
       AgentBuilder.query st classifier executor now question =
         ({ answer := "I can only answer questions about the loaded CSV data. Please ask questions related to your dataset, such as asking about columns, statistics, or searching for specific data."
            is_csv_related := false
            used_tools := []
            metadata := some [("classification_reasoning",
              (classifier question (buildConversationHistory st.memory.chat_memory)).reasoning)]
            timestamp := now }, st)) := by
  constructor
  · intro st cl ex now q h
    simp [AgentBuilder.query, h]
  · intro st cl ex now q h hc
    simp [AgentBuilder.query, h, hc]

/-- C2 witness: both short circuits at concrete states — an unloaded agent
declines any question, and a loaded agent with an all-rejecting classifier
redirects, in both cases returning the state unchanged. -/
theorem c2_witness :
    stUnloaded.csv_loader.is_loaded = false ∧
    AgentBuilder.query stUnloaded classifierYes executorFixed 5 "What is the capital of France?" =
      ({ answer := "No CSV file is currently loaded. Please load a CSV file first."
         is_csv_related := false
         used_tools := []
         metadata := none
         timestamp := 5 }, stUnloaded) ∧
    stLoaded.csv_loader.is_loaded = true ∧
    AgentBuilder.query stLoaded classifierNo executorFixed 6 "What is the capital of France?" =
      ({ answer := "I can only answer questions about the loaded CSV data. Please ask questions related to your dataset, such as asking about columns, statistics, or searching for specific data."
         is_csv_related := false
         used_tools := []
         metadata := some [("classification_reasoning", "unrelated to the dataset")]
         timestamp := 6 }, stLoaded) :=
  ⟨by decide,
   c2_query_short_circuits.1 stUnloaded classifierYes executorFixed 5
     "What is the capital of France?" (by decide),
   by decide,
   c2_query_short_circuits.2 stLoaded classifierNo executorFixed 6
     "What is the capital of France?" (by decide) rfl⟩

/-- C4: with no LLM attached, `get_column_info` classifies a column MEASURE
iff its series is numeric and its lower-cased name does not end in "id";
in every other case it is a DIMENSION. -/
theorem c4_fallback_classification (loader : CSVLoader) (df : DataFrame) (c : String)
    (ci : ColumnInfo) (hllm : loader.llm = none) (hdf : loader.dataframe = some df)
    (hci : loader.get_column_info c = some ci) :
    (ci.column_type = ColumnType.measure ↔
      (isNumericSeries (df.columnValues c) = true ∧
        strEndsWithB (pyLower c) "id" = false)) ∧
    (ci.column_type = ColumnType.dimension ↔
      ¬ (isNumericSeries (df.columnValues c) = true ∧
        strEndsWithB (pyLower c) "id" = false)) := by
  unfold CSVLoader.get_column_info at hci
  rw [hdf] at hci
  by_cases hmem : c ∈ df.cols
  · simp only [hmem, not_true_eq_false, if_false] at hci
    unfold CSVLoader.analyze_column_with_llm at hci
    rw [hllm] at hci
    by_cases hcond :
        (isNumericSeries (df.columnValues c) && !strEndsWithB (pyLower c) "id") = true
    · rw [Bool.and_eq_true, Bool.not_eq_true'] at hcond
      simp only [Bool.and_eq_true, Bool.not_eq_true', hcond, and_self, if_true,
        Option.some.injEq] at hci
      subst hci
      simp [hcond]
    · rw [Bool.and_eq_true, Bool.not_eq_true'] at hcond
      simp only [Bool.and_eq_true, Bool.not_eq_true', hcond, if_false,
        Option.some.injEq] at hci
      subst hci
      simp [hcond]
  · simp [hmem] at hci

/-- C4 witness: the numeric column `employee_id` is classified DIMENSION by
the "ends in id" rule. -/
theorem c4_witness :
    loaderEmployeeId.llm = none ∧
    loaderEmployeeId.dataframe = some dfEmployeeId ∧
    loaderEmployeeId.get_column_info "employee_id" = some ciEmployeeId ∧
    (ciEmployeeId.column_type = ColumnType.measure ↔
      (isNumericSeries (dfEmployeeId.columnValues "employee_id") = true ∧
        strEndsWithB (pyLower "employee_id") "id" = false)) ∧
    ciEmployeeId.column_type = ColumnType.dimension :=
  ⟨rfl, rfl, by decide,
   (c4_fallback_classification loaderEmployeeId dfEmployeeId "employee_id" ciEmployeeId
     rfl rfl (by decide)).1,
   by decide⟩

/-- C5: `is_follow_up_question` is false whenever no history exists, and
with history present it is true exactly when the lower-cased question
contains one of the fixed indicator substrings or has fewer than 5
whitespace-separated words. -/
theorem c5_follow_up_heuristic :
    (∀ (mem : BufferMemoryManager) (question : String),
       mem.conversation_history = [] →
       mem.is_follow_up_question question = false) ∧
    (∀ (mem : BufferMemoryManager) (question : String),
       mem.conversation_history ≠ [] →
       (mem.is_follow_up_question question = true ↔
         ((∃ ind ∈ follow_up_indicators, strContainsB (pyLower question) ind = true) ∨
           (pyWords question).length < 5))) := by
  constructor
  · intro mem q h
    simp [BufferMemoryManager.is_follow_up_question, h]
  · intro mem q h
    have hne : mem.conversation_history.isEmpty = false := by
      cases hh : mem.conversation_history with
      | nil => exact absurd hh h
      | cons x t => rfl
    unfold BufferMemoryManager.is_follow_up_question
    rw [hne]
    by_cases ha : follow_up_indicators.any (fun ind => strContainsB (pyLower q) ind) = true
    · simp only [Bool.false_eq_true, if_false, ha, if_true, true_iff]
      left
      exact List.any_eq_true.mp ha
    · simp only [Bool.false_eq_true, if_false, ha, decide_eq_true_eq]
      constructor
      · intro hw
        exact Or.inr hw
      · intro hor
        rcases hor with hind | hw
        · exact absurd (List.any_eq_true.mpr hind) ha
        · exact hw

/-- C5 witness: "What about it?" is a follow-up once history exists, and no
question is a follow-up in a fresh manager. -/
theorem c5_witness :
    memOne.conversation_history ≠ [] ∧
    (memOne.is_follow_up_question "What about it?" = true ↔
      ((∃ ind ∈ follow_up_indicators,
          strContainsB (pyLower "What about it?") ind = true) ∨
        (pyWords "What about it?").length < 5)) ∧
    memFresh.conversation_history = [] ∧
    memFresh.is_follow_up_question "What about it?" = false :=
  ⟨by decide,
   c5_follow_up_heuristic.2 memOne "What about it?" (by decide),
   rfl,
   c5_follow_up_heuristic.1 memFresh "What about it?" rfl⟩

/-- C9 counterexample: `analyze_and_plot` with the unknown analysis type
"median" (and both columns valid) raises "Unsupported analysis type:
median", a message that does not name any of the four valid analysis
types — contradicting the claim that the error names them. -/
theorem c9_counterexample :
    CSVVisualizer.analyze_and_plot ["department", "salary"] "department" "salary" "median" =
      .error "Unsupported analysis type: median" ∧
    strContainsB "Unsupported analysis type: median" "distribution" = false ∧
    strContainsB "Unsupported analysis type: median" "sum" = false ∧
    strContainsB "Unsupported analysis type: median" "average" = false ∧
    strContainsB "Unsupported analysis type: median" "count" = false :=
  ⟨rfl, by decide, by decide, by decide, by decide⟩

/-- C9 (amended): an analysis type outside {distribution, sum, average,
count} whose column arguments pass the column-existence checks raises an
InvalidInput error naming the unsupported type (but not listing the four
valid types); a missing or unknown column name for a required role raises
an InvalidInput error listing the dataframe's actual columns. -/
theorem c9_validation_errors :
    (∀ (cols : List String) (d m t : String),
       t ∉ ["distribution", "sum", "average", "count"] → d ∈ cols → m ∈ cols →
       CSVVisualizer.analyze_and_plot cols d m t =
         .error ("Unsupported analysis type: " ++ t)) ∧
    (∀ (cols : List String) (d m t : String),
       t ≠ "distribution" → t ≠ "count" → d ∉ cols →
       CSVVisualizer.analyze_and_plot cols d m t =
         .error ("Dimension '" ++ d ++ "' not found in dataframe columns: " ++
           pyColsRepr cols)) ∧
    (∀ (cols : List String) (d m t : String),
       t ≠ "count" → (t = "distribution" ∨ d ∈ cols) → m ∉ cols →
       CSVVisualizer.analyze_and_plot cols d m t =
         .error ("Measure '" ++ m ++ "' not found in dataframe columns: " ++
           pyColsRepr cols)) ∧
    (∀ (cols : List String) (d m : String),
       d ∉ cols →
       CSVVisualizer.analyze_and_plot cols d m "count" =
         .error ("Dimension '" ++ d ++ "' not found in dataframe columns: " ++
           pyColsRepr cols)) := by
  refine ⟨?_, ?_, ?_, ?_⟩
  · intro cols d m t ht hd hm
    simp only [List.mem_cons, List.not_mem_nil, or_false, not_or] at ht
    obtain ⟨h1, h2, h3, h4⟩ := ht
    simp [CSVVisualizer.analyze_and_plot, hd, hm, h1, h2, h3, h4]
  · intro cols d m t h1 h2 hd
    simp [CSVVisualizer.analyze_and_plot, h1, h2, hd]
  · intro cols d m t ht hdm hm
    rcases hdm with hdist | hd
    · subst hdist
      simp [CSVVisualizer.analyze_and_plot, hm]
    · simp [CSVVisualizer.analyze_and_plot, ht, hd, hm]
  · intro cols d m hd
    simp [CSVVisualizer.analyze_and_plot, hd]

/-- C9 witness: a `sum` analysis with an unknown dimension column fails with
the error listing the dataframe's actual columns. -/
theorem c9_witness :
    ("sum" : String) ≠ "distribution" ∧ ("sum" : String) ≠ "count" ∧
    "city" ∉ ["region", "revenue"] ∧
    CSVVisualizer.analyze_and_plot ["region", "revenue"] "city" "revenue" "sum" =
      .error ("Dimension 'city' not found in dataframe columns: " ++
        pyColsRepr ["region", "revenue"]) :=
  ⟨by decide, by decide, by decide,
   c9_validation_errors.2.1 ["region", "revenue"] "city" "revenue" "sum"
     (by decide) (by decide) (by decide)⟩

/-- C7 counterexample: in the superseding design with no LLM attached, the
text column named `email` is described as "Text column with 3 unique
values", not "Email address column" — the keyword pattern-matching
heuristic belongs to the legacy flat loader, not to the superseding
loader's no-LLM path. -/
theorem c7_counterexample :
    (CSVLoader.get_column_info loaderEmail "email").map (fun ci => ci.description) =
      some "Text column with 3 unique values" ∧
    ("Text column with 3 unique values" : String) ≠ "Email address column" :=
  ⟨by decide, by decide⟩

/-- C7 (amended): the keyword pattern-matching description heuristic (id →
"Unique identifier column", name/title → "Name/title column containing text
values", date/time → "Date/time column", email → "Email address column",
price/cost/amount → "Monetary value column", age → "Age column (numeric)",
with the type-based fallback only when no pattern matches) is implemented by
the legacy flat loader's `_infer_column_description`; the superseding
design's no-LLM `get_column_info` instead describes a column as "Numeric
column (range: …)" when numeric with a name not ending in "id", and "Text
column with N unique values" otherwise. -/
theorem c7_description_heuristics :
    (∀ (name : String) (series : List Value),
       (["id", "_id", "identifier"].any fun k => strContainsB (pyLower name) k) = true →
       LegacyCSVLoader.infer_column_description name series = "Unique identifier column") ∧
    (∀ (name : String) (series : List Value),
       (["id", "_id", "identifier"].any fun k => strContainsB (pyLower name) k) = false →
       (["name", "title"].any fun k => strContainsB (pyLower name) k) = true →
       LegacyCSVLoader.infer_column_description name series =
         "Name/title column containing text values") ∧
    (∀ (name : String) (series : List Value),
       (["id", "_id", "identifier"].any fun k => strContainsB (pyLower name) k) = false →
       (["name", "title"].any fun k => strContainsB (pyLower name) k) = false →
       (["date", "time"].any fun k => strContainsB (pyLower name) k) = true →
       LegacyCSVLoader.infer_column_description name series = "Date/time column") ∧
    (∀ (name : String) (series : List Value),
       (["id", "_id", "identifier"].any fun k => strContainsB (pyLower name) k) = false →
       (["name", "title"].any fun k => strContainsB (pyLower name) k) = false →
       (["date", "time"].any fun k => strContainsB (pyLower name) k) = false →
       (["email"].any fun k => strContainsB (pyLower name) k) = true →
       LegacyCSVLoader.infer_column_description name series = "Email address column") ∧
    (∀ (name : String) (series : List Value),
       (["id", "_id", "identifier"].any fun k => strContainsB (pyLower name) k) = false →
       (["name", "title"].any fun k => strContainsB (pyLower name) k) = false →
       (["date", "time"].any fun k => strContainsB (pyLower name) k) = false →
       (["email"].any fun k => strContainsB (pyLower name) k) = false →
       (["price", "cost", "amount"].any fun k => strContainsB (pyLower name) k) = true →
       LegacyCSVLoader.infer_column_description name series = "Monetary value column") ∧
    (∀ (name : String) (series : List Value),
       (["id", "_id", "identifier"].any fun k => strContainsB (pyLower name) k) = false →
       (["name", "title"].any fun k => strContainsB (pyLower name) k) = false →
       (["date", "time"].any fun k => strContainsB (pyLower name) k) = false →
       (["email"].any fun k => strContainsB (pyLower name) k) = false →
       (["price", "cost", "amount"].any fun k => strContainsB (pyLower name) k) = false →
       (["age"].any fun k => strContainsB (pyLower name) k) = true →
       LegacyCSVLoader.infer_column_description name series = "Age column (numeric)") ∧
    (∀ (name : String) (series : List Value),
       (["id", "_id", "identifier"].any fun k => strContainsB (pyLower name) k) = false →
       (["name", "title"].any fun k => strContainsB (pyLower name) k) = false →
       (["date", "time"].any fun k => strContainsB (pyLower name) k) = false →
       (["email"].any fun k => strContainsB (pyLower name) k) = false →
       (["price", "cost", "amount"].any fun k => strContainsB (pyLower name) k) = false →
       (["age"].any fun k => strContainsB (pyLower name) k) = false →
       LegacyCSVLoader.infer_column_description name series =
         (if seriesDtype series = "object" then
           (if (seriesNunique series : ℚ) < (series.length : ℚ) * (1 / 10) then
             "Categorical column with " ++ toString (seriesNunique series) ++ " unique values"
           else "Text column")
         else if isNumericSeries series = true then
           "Numeric column (range: " ++ formatFloat2 (seriesMinInt series) ++ " to " ++
             formatFloat2 (seriesMaxInt series) ++ ")"
         else "Column of type " ++ seriesDtype series)) ∧
    (∀ (loader : CSVLoader) (df : DataFrame) (c : String) (ci : ColumnInfo),
       loader.llm = none → loader.dataframe = some df →
       loader.get_column_info c = some ci →
       ci.description =
         (if (isNumericSeries (df.columnValues c) && !strEndsWithB (pyLower c) "id") = true then
           "Numeric column (range: " ++ formatFloat2 (seriesMinInt (df.columnValues c)) ++
             " to " ++ formatFloat2 (seriesMaxInt (df.columnValues c)) ++ ")"
         else
           "Text column with " ++ toString (seriesNunique (df.columnValues c)) ++
             " unique values")) := by
  refine ⟨?_, ?_, ?_, ?_, ?_, ?_, ?_, ?_⟩
  · intro name series h1
    simp [LegacyCSVLoader.infer_column_description, h1]
  · intro name series h1 h2
    simp [LegacyCSVLoader.infer_column_description, h1, h2]
  · intro name series h1 h2 h3
    simp [LegacyCSVLoader.infer_column_description, h1, h2, h3]
  · intro name series h1 h2 h3 h4
    simp [LegacyCSVLoader.infer_column_description, h1, h2, h3, h4]
  · intro name series h1 h2 h3 h4 h5
    simp [LegacyCSVLoader.infer_column_description, h1, h2, h3, h4, h5]
  · intro name series h1 h2 h3 h4 h5 h6
    simp [LegacyCSVLoader.infer_column_description, h1, h2, h3, h4, h5, h6]
  · intro name series h1 h2 h3 h4 h5 h6
    simp [LegacyCSVLoader.infer_column_description, h1, h2, h3, h4, h5, h6]
  · intro loader df c ci hllm hdf hci
    unfold CSVLoader.get_column_info at hci
    rw [hdf] at hci
    by_cases hmem : c ∈ df.cols
    · simp only [hmem, not_true_eq_false, if_false] at hci
      unfold CSVLoader.analyze_column_with_llm at hci
      rw [hllm] at hci
      by_cases hcond :
          (isNumericSeries (df.columnValues c) && !strEndsWithB (pyLower c) "id") = true
      · simp only [hcond, if_true, Option.some.injEq] at hci
        subst hci
        simp [hcond]
      · simp only [hcond, if_false, Option.some.injEq] at hci
        subst hci
        simp [hcond]
    · simp [hmem] at hci

/-- C7 witness: the legacy loader describes `contact_email` as "Email
address column" by the keyword heuristic, while the superseding loader's
no-LLM path describes the `email` column of `dfEmail` as "Text column with
3 unique values". -/
theorem c7_witness :
    (["email"].any fun k => strContainsB (pyLower "contact_email") k) = true ∧
    LegacyCSVLoader.infer_column_description "contact_email"
      [.str "x@a.com", .str "y@b.com"] = "Email address column" ∧
    loaderEmail.get_column_info "email" = some ciEmail ∧
    ciEmail.description =
      (if (isNumericSeries (dfEmail.columnValues "email") &&
            !strEndsWithB (pyLower "email") "id") = true then
        "Numeric column (range: " ++ formatFloat2 (seriesMinInt (dfEmail.columnValues "email")) ++
          " to " ++ formatFloat2 (seriesMaxInt (dfEmail.columnValues "email")) ++ ")"
      else
        "Text column with " ++ toString (seriesNunique (dfEmail.columnValues "email")) ++
          " unique values") :=
  ⟨by decide,
   c7_description_heuristics.2.2.2.1 "contact_email" [.str "x@a.com", .str "y@b.com"]
     (by decide) (by decide) (by decide) (by decide),
   by decide,
   c7_description_heuristics.2.2.2.2.2.2.2 loaderEmail dfEmail "email" ciEmail rfl rfl
     (by decide)⟩

/-- C8 counterexample: with the default Tool Configuration, the registry
built by `_register_default_tools` does not contain `get_value_counts` —
neither the default allowlist nor the default registration list names it,
so it does not appear in `get_available_tools()`. -/
theorem c8_counterexample :
    "get_value_counts" ∉ ToolManager.availableTools {} := by decide

/-! ## Lemmas about the memory manager's retention behaviour -/

/-- On overflow (the stored count already at or above the maximum), an
`add_interaction` trims the history to the suffix of the configured length
and rebuilds the chat history from the last 10 retained entries. -/
theorem add_interaction_overflow (mem : BufferMemoryManager) (now : Nat) (h a : String)
    (meta : List (String × String))
    (hov : mem.config.max_interactions ≤ mem.conversation_history.length) :
    (mem.add_interaction now h a meta).conversation_history =
      (mem.conversation_history ++
        [({ timestamp := now, human_message := h, ai_response := a,
            metadata := meta } : ConversationEntry)]).drop
        ((mem.conversation_history ++
          [({ timestamp := now, human_message := h, ai_response := a,
              metadata := meta } : ConversationEntry)]).length -
          mem.config.max_interactions) ∧
    (mem.add_interaction now h a meta).chat_memory =
      (takeLast 10 (mem.add_interaction now h a meta).conversation_history).flatMap
        entryMessages := by
  have hce : (mem.conversation_history ++
      [({ timestamp := now, human_message := h, ai_response := a,
          metadata := meta } : ConversationEntry)]).length >
      mem.config.max_interactions := by
    rw [List.length_append]
    simp only [List.length_singleton]
    omega
  unfold BufferMemoryManager.add_interaction BufferMemoryManager.manage_memory_size
    BufferMemoryManager.rebuild_langchain_memory
  rw [if_pos hce]
  exact ⟨rfl, rfl⟩

/-- Without overflow, `add_interaction` appends the entry and mirrors the
user/assistant pair into the chat history. -/
theorem add_interaction_no_overflow (mem : BufferMemoryManager) (now : Nat) (h a : String)
    (meta : List (String × String))
    (hlt : mem.conversation_history.length < mem.config.max_interactions) :
    (mem.add_interaction now h a meta).conversation_history =
      mem.conversation_history ++
        [({ timestamp := now, human_message := h, ai_response := a,
            metadata := meta } : ConversationEntry)] ∧
    (mem.add_interaction now h a meta).chat_memory =
      mem.chat_memory ++ [.human h, .ai a] := by
  have hce : ¬ ((mem.conversation_history ++
      [({ timestamp := now, human_message := h, ai_response := a,
          metadata := meta } : ConversationEntry)]).length >
      mem.config.max_interactions) := by
    rw [List.length_append]
    simp only [List.length_singleton]
    omega
  unfold BufferMemoryManager.add_interaction BufferMemoryManager.manage_memory_size
    BufferMemoryManager.rebuild_langchain_memory
  rw [if_neg hce]
  exact ⟨rfl, rfl⟩

/-- Every entry retained after an `add_interaction` comes from the previous
history extended with the new entry. -/
theorem add_interaction_history_subset (mem : BufferMemoryManager) (now : Nat)
    (h a : String) (meta : List (String × String)) :
    ∀ e ∈ (mem.add_interaction now h a meta).conversation_history,
      e ∈ mem.conversation_history ++
        [({ timestamp := now, human_message := h, ai_response := a,
            metadata := meta } : ConversationEntry)] := by
  intro e he
  by_cases hov : mem.config.max_interactions ≤ mem.conversation_history.length
  · have hh := (add_interaction_overflow mem now h a meta hov).1
    rw [hh] at he
    exact List.drop_subset _ _ he
  · have hh := (add_interaction_no_overflow mem now h a meta (by omega)).1
    rw [hh] at he
    exact he

/-- A chat message absent from the chat history, and distinct from every
stored entry's messages and from the newly added pair, stays absent after
one `add_interaction` (whether or not a rebuild occurs). -/
theorem add_interaction_absent_step (mem : BufferMemoryManager) (now : Nat) (h a : String)
    (meta : List (String × String)) (msg : ChatMessage)
    (hchat : msg ∉ mem.chat_memory)
    (hhist : ∀ e ∈ mem.conversation_history,
      msg ≠ ChatMessage.human e.human_message ∧ msg ≠ ChatMessage.ai e.ai_response)
    (hh : msg ≠ ChatMessage.human h) (ha : msg ≠ ChatMessage.ai a) :
    msg ∉ (mem.add_interaction now h a meta).chat_memory ∧
    (∀ e ∈ (mem.add_interaction now h a meta).conversation_history,
      msg ≠ ChatMessage.human e.human_message ∧ msg ≠ ChatMessage.ai e.ai_response) := by
  have hhist' : ∀ e ∈ mem.conversation_history ++
      [({ timestamp := now, human_message := h, ai_response := a,
          metadata := meta } : ConversationEntry)],
      msg ≠ ChatMessage.human e.human_message ∧ msg ≠ ChatMessage.ai e.ai_response := by
    intro e he
    rcases List.mem_append.mp he with he | he
    · exact hhist e he
    · simp only [List.mem_singleton] at he
      subst he
      exact ⟨hh, ha⟩
  have hkeep : ∀ e ∈ (mem.add_interaction now h a meta).conversation_history,
      msg ≠ ChatMessage.human e.human_message ∧ msg ≠ ChatMessage.ai e.ai_response :=
    fun e he => hhist' e (add_interaction_history_subset mem now h a meta e he)
  refine ⟨?_, hkeep⟩
  by_cases hov : mem.config.max_interactions ≤ mem.conversation_history.length
  · rw [(add_interaction_overflow mem now h a meta hov).2]
    intro hmem
    rcases List.mem_flatMap.mp hmem with ⟨e, he, hmsg⟩
    have he' : e ∈ (mem.add_interaction now h a meta).conversation_history := by
      unfold takeLast at he
      exact List.drop_subset _ _ he
    rcases hkeep e he' with ⟨hne1, hne2⟩
    simp only [entryMessages, List.mem_cons, List.not_mem_nil, or_false] at hmsg
    rcases hmsg with hmsg | hmsg
    · exact hne1 hmsg
    · exact hne2 hmsg
  · rw [(add_interaction_no_overflow mem now h a meta (by omega)).2]
    intro hmem
    rcases List.mem_append.mp hmem with hmem | hmem
    · exact hchat hmem
    · simp only [List.mem_cons, List.not_mem_nil, or_false] at hmem
      rcases hmem with hmem | hmem
      · exact hh hmem
      · exact ha hmem

/-- C3: after every `add_interaction` from a state within the configured
maximum, the stored entry list holds at most `max_interactions` entries;
and when the addition makes the count exceed the maximum, exactly the most
recent `max_interactions` entries are retained and the LLM-facing chat
history is rebuilt to reflect exactly the most recent 10 entries. -/
theorem c3_memory_retention (mem : BufferMemoryManager) (now : Nat) (h a : String)
    (meta : List (String × String))
    (hlen : mem.conversation_history.length ≤ mem.config.max_interactions) :
    (mem.add_interaction now h a meta).conversation_history.length ≤
      mem.config.max_interactions ∧
    (mem.conversation_history.length = mem.config.max_interactions →
      (mem.add_interaction now h a meta).conversation_history =
        takeLast mem.config.max_interactions
          (mem.conversation_history ++
            [({ timestamp := now, human_message := h, ai_response := a,
                metadata := meta } : ConversationEntry)]) ∧
      (mem.add_interaction now h a meta).chat_memory =
        (takeLast 10 (mem.add_interaction now h a meta).conversation_history).flatMap
          entryMessages) := by
  constructor
  · by_cases heq : mem.conversation_history.length = mem.config.max_interactions
    · have hov : mem.config.max_interactions ≤ mem.conversation_history.length := by omega
      rw [(add_interaction_overflow mem now h a meta hov).1]
      simp only [List.length_drop, List.length_append, List.length_singleton]
      omega
    · rw [(add_interaction_no_overflow mem now h a meta (by omega)).1]
      simp only [List.length_append, List.length_singleton]
      omega
  · intro heq
    have hov : mem.config.max_interactions ≤ mem.conversation_history.length := by omega
    exact ⟨(add_interaction_overflow mem now h a meta hov).1,
           (add_interaction_overflow mem now h a meta hov).2⟩

/-- C3 witness: at the default maximum of 30 stored entries, a further
interaction retains exactly the 30 most recent entries and rebuilds the chat
history from the last 10. -/
theorem c3_witness :
    memAtLimit.conversation_history.length ≤ memAtLimit.config.max_interactions ∧
    ((memAtLimit.add_interaction 30 "q30" "a30" []).conversation_history.length ≤
      memAtLimit.config.max_interactions ∧
    (memAtLimit.conversation_history.length = memAtLimit.config.max_interactions →
      (memAtLimit.add_interaction 30 "q30" "a30" []).conversation_history =
        takeLast memAtLimit.config.max_interactions
          (memAtLimit.conversation_history ++
            [({ timestamp := 30, human_message := "q30", ai_response := "a30",
                metadata := [] } : ConversationEntry)]) ∧
      (memAtLimit.add_interaction 30 "q30" "a30" []).chat_memory =
        (takeLast 10
          (memAtLimit.add_interaction 30 "q30" "a30" []).conversation_history).flatMap
          entryMessages)) :=
  ⟨by decide, c3_memory_retention memAtLimit 30 "q30" "a30" [] (by decide)⟩

/-- C10: the synthetic "Analyzing CSV file: …" assistant message injected by
`set_csv_context` is appended to the chat history; an `add_interaction`
that triggers the overflow rebuild leaves the chat history consisting of
exactly the user/assistant message pairs of the most recent 10 entries and
nothing else — in particular any message distinct from every retained
entry's messages, such as the synthetic context message, is removed — and
it stays absent under every later sequence of interactions whose messages
differ from it. -/
theorem c10_rebuild_drops_context :
    (∀ (mem : BufferMemoryManager) (f s : String),
       (mem.set_csv_context f s).chat_memory =
         mem.chat_memory ++ [ChatMessage.ai (csvContextMessage f s)]) ∧
    (∀ (mem : BufferMemoryManager) (now : Nat) (h a : String)
       (meta : List (String × String)),
       mem.config.max_interactions ≤ mem.conversation_history.length →
       (mem.add_interaction now h a meta).chat_memory =
         (takeLast 10 (mem.add_interaction now h a meta).conversation_history).flatMap
           entryMessages ∧
       (∀ msg : ChatMessage,
          (∀ e ∈ (mem.add_interaction now h a meta).conversation_history,
            msg ≠ ChatMessage.human e.human_message ∧ msg ≠ ChatMessage.ai e.ai_response) →
          msg ∉ (mem.add_interaction now h a meta).chat_memory)) ∧
    (∀ (mem : BufferMemoryManager) (msg : ChatMessage) (adds : List AddCall),
       msg ∉ mem.chat_memory →
       (∀ e ∈ mem.conversation_history,
         msg ≠ ChatMessage.human e.human_message ∧ msg ≠ ChatMessage.ai e.ai_response) →
       (∀ x ∈ adds, msg ≠ ChatMessage.human x.human_message ∧
         msg ≠ ChatMessage.ai x.ai_response) →
       msg ∉ (applyAdds mem adds).chat_memory) := by
  refine ⟨?_, ?_, ?_⟩
  · intro mem f s
    rfl
  · intro mem now h a meta hov
    have hkey := add_interaction_overflow mem now h a meta hov
    refine ⟨hkey.2, ?_⟩
    intro msg hne hmem
    rw [hkey.2] at hmem
    rcases List.mem_flatMap.mp hmem with ⟨e, he, hmsg⟩
    have he' : e ∈ (mem.add_interaction now h a meta).conversation_history := by
      unfold takeLast at he
      exact List.drop_subset _ _ he
    rcases hne e he' with ⟨hne1, hne2⟩
    simp only [entryMessages, List.mem_cons, List.not_mem_nil, or_false] at hmsg
    rcases hmsg with hmsg | hmsg
    · exact hne1 hmsg
    · exact hne2 hmsg
  · intro mem msg adds
    induction adds generalizing mem with
    | nil =>
      intro hchat _ _
      exact hchat
    | cons x t ih =>
      intro hchat hhist hadds
      have hx := hadds x (List.mem_cons_self x t)
      have hstep := add_interaction_absent_step mem x.now x.human_message x.ai_response
        x.metadata msg hchat hhist hx.1 hx.2
      exact ih _ hstep.1 hstep.2
        (fun y hy => hadds y (List.mem_cons_of_mem x hy))

/-! ## Order lemmas for the sorting model -/

/-- `listLtB` is irreflexive. -/
theorem listLtB_irrefl (a : List Char) : listLtB a a = false := by
  induction a with
  | nil => rfl
  | cons x xs ih => simp [listLtB, ih]

/-- `listLtB` is asymmetric. -/
theorem listLtB_asymm (a : List Char) : ∀ b, listLtB a b = true → listLtB b a = false := by
  induction a with
  | nil =>
    intro b h
    cases b with
    | nil => exact absurd h (by simp [listLtB])
    | cons y ys => rfl
  | cons x xs ih =>
    intro b h
    cases b with
    | nil => exact absurd h (by simp [listLtB])
    | cons y ys =>
      simp only [listLtB] at h ⊢
      by_cases hxy : x.toNat < y.toNat
      · rw [if_neg (by omega : ¬ y.toNat < x.toNat), if_pos hxy]
      · rw [if_neg hxy] at h
        by_cases hyx : y.toNat < x.toNat
        · rw [if_pos hyx] at h
          exact absurd h (by simp)
        · rw [if_neg hyx] at h
          rw [if_neg hyx, if_neg hxy]
          exact ih ys h

/-- The negation of `listLtB` is transitive. -/
theorem listLtB_negtrans (a : List Char) :
    ∀ b c, listLtB a b = false → listLtB b c = false → listLtB a c = false := by
  induction a with
  | nil =>
    intro b c h1 h2
    cases b with
    | nil => exact h2
    | cons y ys => exact absurd h1 (by simp [listLtB])
  | cons x xs ih =>
    intro b c h1 h2
    cases c with
    | nil => rfl
    | cons z zs =>
      cases b with
      | nil => exact absurd h2 (by simp [listLtB])
      | cons y ys =>
        simp only [listLtB] at h1 h2 ⊢
        by_cases hxy : x.toNat < y.toNat
        · rw [if_pos hxy] at h1
          exact absurd h1 (by simp)
        · rw [if_neg hxy] at h1
          by_cases hyz : y.toNat < z.toNat
          · rw [if_pos hyz] at h2
            exact absurd h2 (by simp)
          · rw [if_neg hyz] at h2
            by_cases hxz : x.toNat < z.toNat
            · omega
            · rw [if_neg hxz]
              by_cases hzx : z.toNat < x.toNat
              · rw [if_pos hzx]
              · rw [if_neg hzx]
                by_cases hyx : y.toNat < x.toNat
                · omega
                · rw [if_neg hyx] at h1
                  by_cases hzy : z.toNat < y.toNat
                  · omega
                  · rw [if_neg hzy] at h2
                    exact ih ys zs h1 h2

/-- `Value.ltB` is irreflexive. -/
theorem vltB_irrefl (v : Value) : Value.ltB v v = false := by
  cases v with
  | int i => simp [Value.ltB]
  | str s => simp [Value.ltB, listLtB_irrefl]
  | null => rfl

/-- `Value.ltB` is asymmetric. -/
theorem vltB_asymm {v w : Value} (h : Value.ltB v w = true) : Value.ltB w v = false := by
  cases v with
  | int i =>
    cases w with
    | int j =>
      exact decide_eq_false (by have hij := of_decide_eq_true h; omega)
    | str s => rfl
    | null => exact Bool.noConfusion h
  | str s =>
    cases w with
    | int j => exact Bool.noConfusion h
    | str t => exact listLtB_asymm _ _ h
    | null => exact Bool.noConfusion h
  | null =>
    cases w with
    | int j => rfl
    | str t => rfl
    | null => exact Bool.noConfusion h

/-- The negation of `Value.ltB` is transitive. -/
theorem vltB_negtrans {u v w : Value} (h1 : Value.ltB u v = false)
    (h2 : Value.ltB v w = false) : Value.ltB u w = false := by
  cases u with
  | int i =>
    cases w with
    | null => rfl
    | int k =>
      cases v with
      | int j =>
        exact decide_eq_false
          (by have a1 := of_decide_eq_false h1; have a2 := of_decide_eq_false h2; omega)
      | str s => exact Bool.noConfusion h1
      | null => exact Bool.noConfusion h2
    | str t =>
      cases v with
      | int j => exact Bool.noConfusion h2
      | str s => exact Bool.noConfusion h1
      | null => exact Bool.noConfusion h2
  | str s =>
    cases w with
    | null => rfl
    | int k => rfl
    | str t =>
      cases v with
      | int j => exact Bool.noConfusion h2
      | str m => exact listLtB_negtrans _ _ _ h1 h2
      | null => exact Bool.noConfusion h2
  | null =>
    cases w with
    | null => rfl
    | int k =>
      cases v with
      | int j => exact Bool.noConfusion h1
      | str m => exact Bool.noConfusion h1
      | null => exact Bool.noConfusion h2
    | str t =>
      cases v with
      | int j => exact Bool.noConfusion h1
      | str m => exact Bool.noConfusion h1
      | null => exact Bool.noConfusion h2

/-- A single descending sort key compares rows by "not strictly below". -/
theorem rowLeB_single_desc (df : DataFrame) (c : String) (r1 r2 : List Value) :
    rowLeB df [(c, false)] r1 r2 =
      !(Value.ltB (df.rowCells r1 c) (df.rowCells r2 c)) := by
  simp only [rowLeB]
  cases h12 : Value.ltB (df.rowCells r1 c) (df.rowCells r2 c) with
  | true => simp [h12]
  | false =>
    cases h21 : Value.ltB (df.rowCells r2 c) (df.rowCells r1 c) <;> simp [h12, h21]

/-- In a sorted list, the (defaulted) head is related to every element,
given reflexivity on its elements. -/
theorem sorted_headD_rel {α : Type} {r : α → α → Prop} {l : List α}
    (hs : List.Sorted r l) (hrefl : ∀ x ∈ l, r x x) {x : α} (hx : x ∈ l) (d : α) :
    r (l.headD d) x := by
  cases l with
  | nil => exact absurd hx (List.not_mem_nil x)
  | cons h t =>
    rcases List.mem_cons.mp hx with rfl | hx'
    · exact hrefl _ (List.mem_cons_self _ _)
    · exact (List.sorted_cons.mp hs).1 x hx'

/-- In a sorted list, every element is related to the (defaulted) last
element, given reflexivity on its elements. -/
theorem sorted_getLastD_rel {α : Type} {r : α → α → Prop} :
    ∀ {l : List α}, List.Sorted r l → (∀ x ∈ l, r x x) →
      ∀ {x : α}, x ∈ l → ∀ d : α, r x (l.getLastD d) := by
  intro l
  induction l with
  | nil =>
    intro _ _ x hx
    exact absurd hx (List.not_mem_nil x)
  | cons h t ih =>
    intro hs hrefl x hx d
    cases t with
    | nil =>
      rcases List.mem_cons.mp hx with rfl | hx'
      · exact hrefl _ (List.mem_cons_self _ _)
      · exact absurd hx' (List.not_mem_nil x)
    | cons y ys =>
      have hlast : (h :: y :: ys).getLastD d = (y :: ys).getLastD d := by
        rw [List.getLastD_cons d h, List.getLastD_cons h y, List.getLastD_cons d y]
      have hmemlast : (y :: ys).getLastD d ∈ y :: ys := by
        rw [List.getLastD_cons]
        exact List.getLastD_mem_cons ys y
      rw [hlast]
      rcases List.mem_cons.mp hx with rfl | hx'
      · exact (List.sorted_cons.mp hs).1 _ hmemlast
      · exact ih (List.sorted_cons.mp hs).2
          (fun z hz => hrefl z (List.mem_cons_of_mem h hz)) hx' d

/-- C6: `sort_data` on a single existing numeric sort column with order
"desc" returns the rows in descending order of that column (showing at most
50 rows, with an "... and N more rows." suffix when more exist) followed by
a "Highest <col>: <max>" line whose value is the column maximum and a
"Lowest <col>: <min>" line whose value is the column minimum; a
non-existent sort column yields (without raising) text naming the missing
column and listing the actual available columns; an order token other than
asc/desc is rejected with an explanatory message; and a shorter order list
is right-padded with "asc", visible in the sort description. -/
theorem c6_sort_data_tool :
    (∀ (loader : CSVLoader) (df : DataFrame) (c : String),
       loader.dataframe = some df →
       ((splitOnChar ',' c).map pyStrip).filter (fun x => x ≠ "") = [c] →
       pyStrip c = c → c ≠ "" → c ∈ df.cols →
       isNumericSeries (df.columnValues c) = true →
       df.rows ≠ [] →
       ∃ sorted : List (List Value),
         sorted.Perm df.rows ∧
         List.Sorted
           (fun r1 r2 => Value.ltB (df.rowCells r1 c) (df.rowCells r2 c) = false) sorted ∧
         (∀ r ∈ df.rows,
           Value.ltB (df.rowCells (sorted.headD []) c) (df.rowCells r c) = false) ∧
         (∀ r ∈ df.rows,
           Value.ltB (df.rowCells r c) (df.rowCells (sorted.getLastD []) c) = false) ∧
         SortDataTool.execute loader c "desc" =
           "Data sorted by: " ++ commaJoin [c ++ " (" ++ "desc" ++ ")"] ++ "\n" ++
             "Total rows: " ++ toString df.rows.length ++ "\n\n" ++
             (if df.rows.length > 50 then
               renderRows df (sorted.take 50) ++
                 "\n\n... and " ++ toString (df.rows.length - 50) ++ " more rows."
             else renderRows df sorted) ++
             ("\n\nHighest " ++ c ++ ": " ++ (df.rowCells (sorted.headD []) c).render ++
              "\nLowest " ++ c ++ ": " ++ (df.rowCells (sorted.getLastD []) c).render)) ∧
    (∀ (loader : CSVLoader) (df : DataFrame) (c orders : String),
       loader.dataframe = some df →
       ((splitOnChar ',' c).map pyStrip).filter (fun x => x ≠ "") = [c] →
       pyStrip c = c → c ≠ "" → c ∉ df.cols →
       SortDataTool.execute loader c orders =
         "Sort columns not found: " ++ commaJoin [c] ++ ". Available columns: " ++
           commaJoin df.cols) ∧
    (∀ (loader : CSVLoader) (df : DataFrame) (c orders o : String),
       loader.dataframe = some df →
       ((splitOnChar ',' c).map pyStrip).filter (fun x => x ≠ "") = [c] →
       pyStrip c = c → c ≠ "" → c ∈ df.cols →
       ((splitOnChar ',' orders).map (fun x => pyLower (pyStrip x))).filter
         (fun x => x ≠ "") = [o] →
       o ≠ "asc" → o ≠ "desc" →
       SortDataTool.execute loader c orders =
         "Invalid sort orders: " ++ commaJoin [o] ++ ". Use 'asc' or 'desc'.") ∧
    (∀ (loader : CSVLoader) (df : DataFrame) (s orders c1 c2 : String),
       loader.dataframe = some df →
       pyStrip s ≠ "" →
       ((splitOnChar ',' s).map pyStrip).filter (fun x => x ≠ "") = [c1, c2] →
       c1 ∈ df.cols → c2 ∈ df.cols →
       ((splitOnChar ',' orders).map (fun x => pyLower (pyStrip x))).filter
         (fun x => x ≠ "") = ["desc"] →
       df.rows ≠ [] →
       ∃ sorted : List (List Value),
         SortDataTool.execute loader s orders =
           "Data sorted by: " ++
             commaJoin [c1 ++ " (" ++ "desc" ++ ")", c2 ++ " (" ++ "asc" ++ ")"] ++ "\n" ++
             "Total rows: " ++ toString df.rows.length ++ "\n\n" ++
             (if df.rows.length > 50 then
               renderRows df (sorted.take 50) ++
                 "\n\n... and " ++ toString (df.rows.length - 50) ++ " more rows."
             else renderRows df sorted) ++ "") := by
  refine ⟨?_, ?_, ?_, ?_⟩
  · intro loader df c hdf hparse hstrip hcne hmem hnum hrows
    haveI instT : IsTotal (List Value)
        (fun r1 r2 => rowLeB df [(c, false)] r1 r2 = true) := by
      constructor
      intro r1 r2
      rw [rowLeB_single_desc, rowLeB_single_desc]
      simp only [Bool.not_eq_true']
      cases hlt : Value.ltB (df.rowCells r1 c) (df.rowCells r2 c) with
      | false => exact Or.inl rfl
      | true => exact Or.inr (vltB_asymm hlt)
    haveI instTr : IsTrans (List Value)
        (fun r1 r2 => rowLeB df [(c, false)] r1 r2 = true) := by
      constructor
      intro a b e hab hbe
      rw [rowLeB_single_desc] at hab hbe ⊢
      simp only [Bool.not_eq_true'] at hab hbe ⊢
      exact vltB_negtrans hab hbe
    have hperm := List.perm_insertionSort
      (fun r1 r2 => rowLeB df [(c, false)] r1 r2 = true) df.rows
    have hsorted := List.sorted_insertionSort
      (fun r1 r2 => rowLeB df [(c, false)] r1 r2 = true) df.rows
    have hrefl : ∀ x ∈ List.insertionSort
        (fun r1 r2 => rowLeB df [(c, false)] r1 r2 = true) df.rows,
        rowLeB df [(c, false)] x x = true := by
      intro x _
      rw [rowLeB_single_desc]
      simp [vltB_irrefl]
    have hlen : (List.insertionSort
        (fun r1 r2 => rowLeB df [(c, false)] r1 r2 = true) df.rows).length =
        df.rows.length := hperm.length_eq
    have hsne : (List.insertionSort
        (fun r1 r2 => rowLeB df [(c, false)] r1 r2 = true) df.rows).isEmpty = false := by
      rw [List.isEmpty_eq_false]
      intro hnil
      rw [hnil] at hlen
      exact hrows (List.length_eq_zero.mp hlen.symm)
    refine ⟨List.insertionSort (fun r1 r2 => rowLeB df [(c, false)] r1 r2 = true) df.rows,
      hperm, ?_, ?_, ?_, ?_⟩
    · exact hsorted.imp (fun {a b} hab => by
        rw [rowLeB_single_desc] at hab
        simp only [Bool.not_eq_true'] at hab
        exact hab)
    · intro r hr
      have hr' : r ∈ List.insertionSort
          (fun r1 r2 => rowLeB df [(c, false)] r1 r2 = true) df.rows :=
        hperm.mem_iff.mpr hr
      have hrel := sorted_headD_rel hsorted hrefl hr' ([] : List Value)
      rw [rowLeB_single_desc] at hrel
      simp only [Bool.not_eq_true'] at hrel
      exact hrel
    · intro r hr
      have hr' : r ∈ List.insertionSort
          (fun r1 r2 => rowLeB df [(c, false)] r1 r2 = true) df.rows :=
        hperm.mem_iff.mpr hr
      have hrel := sorted_getLastD_rel hsorted hrefl hr' ([] : List Value)
      rw [rowLeB_single_desc] at hrel
      simp only [Bool.not_eq_true'] at hrel
      exact hrel
    · have hords : ((splitOnChar ',' "desc").map (fun x => pyLower (pyStrip x))).filter
          (fun x => x ≠ "") = ["desc"] := by decide
      have hmem' : decide (c ∉ df.cols) = false := by simp [hmem]
      have horder' : (decide (("desc" : String) ≠ "asc") &&
          decide (("desc" : String) ≠ "desc")) = false := by decide
      have hbeq : (("desc" == "asc") : Bool) = false := by decide
      simp only [SortDataTool.execute, hdf]
      rw [hstrip, if_neg hcne, hparse, hords]
      simp only [List.filter_cons, List.filter_nil, hmem', horder', hbeq, if_false,
        Bool.false_eq_true, List.isEmpty_cons, List.isEmpty_nil, List.length_singleton,
        Nat.sub_self, List.replicate_zero, List.append_nil, List.take_succ_cons,
        List.take_nil, List.map_cons, List.map_nil, List.zip_cons_cons,
        List.zip_nil_right, hsne, hnum, hlen, if_true]
      simp
  · intro loader df c orders hdf hparse hstrip hcne hnotmem
    have hnotmem' : decide (c ∉ df.cols) = true := by simp [hnotmem]
    simp only [SortDataTool.execute, hdf]
    rw [hstrip, if_neg hcne, hparse]
    simp only [List.filter_cons, List.filter_nil, hnotmem', if_true, List.isEmpty_cons,
      List.isEmpty_nil, Bool.false_eq_true, if_false]
  · intro loader df c orders o hdf hparse hstrip hcne hmem hords ho1 ho2
    have hmem' : decide (c ∉ df.cols) = false := by simp [hmem]
    have horder' : (decide (o ≠ "asc") && decide (o ≠ "desc")) = true := by
      simp [ho1, ho2]
    simp only [SortDataTool.execute, hdf]
    rw [hstrip, if_neg hcne, hparse, hords]
    simp only [List.filter_cons, List.filter_nil, hmem', horder', if_true, if_false,
      Bool.false_eq_true, List.isEmpty_cons, List.isEmpty_nil]
    simp
  · intro loader df s orders c1 c2 hdf hsne hparse hmem1 hmem2 hords hrows
    have hperm := List.perm_insertionSort
      (fun r1 r2 => rowLeB df [(c1, false), (c2, true)] r1 r2 = true) df.rows
    have hlen : (List.insertionSort
        (fun r1 r2 => rowLeB df [(c1, false), (c2, true)] r1 r2 = true) df.rows).length =
        df.rows.length := hperm.length_eq
    have hsne' : (List.insertionSort
        (fun r1 r2 => rowLeB df [(c1, false), (c2, true)] r1 r2 = true) df.rows).isEmpty =
        false := by
      rw [List.isEmpty_eq_false]
      intro hnil
      rw [hnil] at hlen
      exact hrows (List.length_eq_zero.mp hlen.symm)
    have hmem1' : decide (c1 ∉ df.cols) = false := by simp [hmem1]
    have hmem2' : decide (c2 ∉ df.cols) = false := by simp [hmem2]
    have horder' : (decide (("desc" : String) ≠ "asc") &&
        decide (("desc" : String) ≠ "desc")) = false := by decide
    have hbeq1 : (("desc" == "asc") : Bool) = false := by decide
    have hbeq2 : (("asc" == "asc") : Bool) = true := by decide
    refine ⟨List.insertionSort
      (fun r1 r2 => rowLeB df [(c1, false), (c2, true)] r1 r2 = true) df.rows, ?_⟩
    simp only [SortDataTool.execute, hdf]
    rw [if_neg hsne, hparse, hords]
    simp only [List.filter_cons, List.filter_nil, hmem1', hmem2', horder', hbeq1, hbeq2,
      if_false, Bool.false_eq_true, List.isEmpty_cons, List.isEmpty_nil,
      List.length_cons, List.length_singleton, List.length_nil, List.map_cons,
      List.map_nil, List.take_succ_cons, List.take_nil, List.zip_cons_cons,
      List.zip_nil_right, hsne', hlen, if_true]
    simp
    intro hnil
    rw [hnil] at hlen
    exact absurd (List.length_eq_zero.mp hlen.symm) hrows

/-- C6 witness: sorting `dfPeople` by its numeric `salary` column in
descending order. -/
theorem c6_witness :
    loaderPeople.dataframe = some dfPeople ∧
    ((splitOnChar ',' "salary").map pyStrip).filter (fun x => x ≠ "") = ["salary"] ∧
    "salary" ∈ dfPeople.cols ∧
    isNumericSeries (dfPeople.columnValues "salary") = true ∧
    (∃ sorted : List (List Value),
      sorted.Perm dfPeople.rows ∧
      List.Sorted
        (fun r1 r2 =>
          Value.ltB (dfPeople.rowCells r1 "salary") (dfPeople.rowCells r2 "salary") = false)
        sorted ∧
      (∀ r ∈ dfPeople.rows,
        Value.ltB (dfPeople.rowCells (sorted.headD []) "salary")
          (dfPeople.rowCells r "salary") = false) ∧
      (∀ r ∈ dfPeople.rows,
        Value.ltB (dfPeople.rowCells r "salary")
          (dfPeople.rowCells (sorted.getLastD []) "salary") = false) ∧
      SortDataTool.execute loaderPeople "salary" "desc" =
        "Data sorted by: " ++ commaJoin ["salary" ++ " (" ++ "desc" ++ ")"] ++ "\n" ++
          "Total rows: " ++ toString dfPeople.rows.length ++ "\n\n" ++
          (if dfPeople.rows.length > 50 then
            renderRows dfPeople (sorted.take 50) ++
              "\n\n... and " ++ toString (dfPeople.rows.length - 50) ++ " more rows."
          else renderRows dfPeople sorted) ++
          ("\n\nHighest " ++ "salary" ++ ": " ++
            (dfPeople.rowCells (sorted.headD []) "salary").render ++
           "\nLowest " ++ "salary" ++ ": " ++
            (dfPeople.rowCells (sorted.getLastD []) "salary").render)) :=
  ⟨rfl, by decide, by decide, by decide,
   c6_sort_data_tool.1 loaderPeople dfPeople "salary" rfl (by decide) (by decide)
     (by decide) (by decide) (by decide) (by decide)⟩

/-! ## Lemmas for the value-counts model -/

/-- `List.contains` agrees with membership on cell values. -/
theorem value_contains_iff {l : List Value} {v : Value} : l.contains v = true ↔ v ∈ l :=
  List.elem_iff

/-- Membership in `firstDedup`: the elements of the list not already seen. -/
theorem mem_firstDedup (l : List Value) :
    ∀ (seen : List Value) (v : Value), v ∈ firstDedup seen l ↔ (v ∈ l ∧ v ∉ seen) := by
  induction l with
  | nil =>
    intro seen v
    simp [firstDedup]
  | cons w t ih =>
    intro seen v
    simp only [firstDedup]
    by_cases hw : seen.contains w = true
    · rw [if_pos hw]
      rw [ih]
      constructor
      · rintro ⟨hv, hs⟩
        exact ⟨List.mem_cons_of_mem _ hv, hs⟩
      · rintro ⟨hv, hs⟩
        rcases List.mem_cons.mp hv with rfl | hv'
        · exact absurd (value_contains_iff.mp hw) hs
        · exact ⟨hv', hs⟩
    · rw [if_neg hw]
      constructor
      · intro hmem
        rcases List.mem_cons.mp hmem with rfl | hmem'
        · refine ⟨List.mem_cons_self _ _, ?_⟩
          intro hseen
          exact hw (value_contains_iff.mpr hseen)
        · rcases (ih (w :: seen) v).mp hmem' with ⟨hv, hs⟩
          exact ⟨List.mem_cons_of_mem _ hv,
            fun hseen => hs (List.mem_cons_of_mem _ hseen)⟩
      · rintro ⟨hv, hs⟩
        by_cases hvw : v = w
        · exact hvw ▸ List.mem_cons_self _ _
        · have hv' : v ∈ t := by
            rcases List.mem_cons.mp hv with h | h
            · exact absurd h hvw
            · exact h
          refine List.mem_cons_of_mem _ ((ih (w :: seen) v).mpr ⟨hv', ?_⟩)
          intro hmem
          rcases List.mem_cons.mp hmem with h | h
          · exact hvw h
          · exact hs h

/-- `firstDedup` produces no duplicates. -/
theorem nodup_firstDedup (l : List Value) : ∀ seen : List Value, (firstDedup seen l).Nodup := by
  induction l with
  | nil =>
    intro seen
    exact List.nodup_nil
  | cons w t ih =>
    intro seen
    simp only [firstDedup]
    by_cases hw : seen.contains w = true
    · rw [if_pos hw]
      exact ih seen
    · rw [if_neg hw]
      refine List.nodup_cons.mpr ⟨?_, ih _⟩
      intro hmem
      rcases (mem_firstDedup t (w :: seen) w).mp hmem with ⟨_, hs⟩
      exact hs (List.mem_cons_self _ _)

/-- C8 (amended): `get_value_counts` is not registered by the default Tool
Registry — it appears in neither the construction list of
`_register_default_tools` nor any allowlist's intersection with it, so
`get_available_tools()` never reports it; the tool's `execute`, invoked
directly on an existing column, reports the frequency of every distinct
non-missing value (each exactly once, with its true multiplicity, ordered
by non-increasing count), capped at the top 20 with a "(out of N unique
values)" note when more than 20 unique values exist. -/
theorem c8_value_counts :
    (∀ cfg : ToolConfig, "get_value_counts" ∉ ToolManager.availableTools cfg) ∧
    (∀ (loader : CSVLoader) (df : DataFrame) (c : String),
       loader.dataframe = some df → c ∈ df.cols →
       (∀ v ∈ nonNullCells (df.columnValues c),
          (v, (nonNullCells (df.columnValues c)).count v) ∈ valueCounts (df.columnValues c)) ∧
       (∀ p ∈ valueCounts (df.columnValues c),
          p.1 ∈ nonNullCells (df.columnValues c) ∧
            p.2 = (nonNullCells (df.columnValues c)).count p.1) ∧
       ((valueCounts (df.columnValues c)).map Prod.fst).Nodup ∧
       List.Sorted (fun p q : Value × Nat => q.2 ≤ p.2) (valueCounts (df.columnValues c)) ∧
       (valueCounts (df.columnValues c)).length = seriesNunique (df.columnValues c) ∧
       GetValueCountsTool.execute loader c =
         (if (valueCounts (df.columnValues c)).length > 20 then
           "Top 20 values in '" ++ c ++ "' (out of " ++
             toString (valueCounts (df.columnValues c)).length ++ " unique values):\n\n" ++
             renderCounts ((valueCounts (df.columnValues c)).take 20)
         else
           "Value counts for '" ++ c ++ "':\n\n" ++
             renderCounts (valueCounts (df.columnValues c)))) := by
  constructor
  · intro cfg hmem
    exact absurd (List.mem_filter.mp hmem).1 (by decide)
  · intro loader df c hdf hmem
    have hperm : (valueCounts (df.columnValues c)).Perm
        ((firstDedup [] (nonNullCells (df.columnValues c))).map
          (fun k => (k, (nonNullCells (df.columnValues c)).count k))) :=
      List.perm_insertionSort _ _
    refine ⟨?_, ?_, ?_, ?_, ?_, ?_⟩
    · intro v hv
      refine hperm.mem_iff.mpr (List.mem_map.mpr ⟨v, ?_, rfl⟩)
      exact (mem_firstDedup _ [] v).mpr ⟨hv, List.not_mem_nil v⟩
    · intro p hp
      rcases List.mem_map.mp (hperm.mem_iff.mp hp) with ⟨k, hk, hpk⟩
      subst hpk
      exact ⟨((mem_firstDedup _ [] k).mp hk).1, rfl⟩
    · have hmap := (hperm.map Prod.fst).nodup_iff
      rw [hmap, List.map_map]
      have : (Prod.fst ∘ fun k => (k, (nonNullCells (df.columnValues c)).count k)) =
          (fun k : Value => k) := rfl
      rw [this, List.map_id']
      exact nodup_firstDedup _ []
    · haveI : IsTotal (Value × Nat) (fun p q : Value × Nat => q.2 ≤ p.2) :=
        ⟨fun p q => (Nat.le_total q.2 p.2).elim Or.inl Or.inr⟩
      haveI : IsTrans (Value × Nat) (fun p q : Value × Nat => q.2 ≤ p.2) :=
        ⟨fun _ _ _ h1 h2 => Nat.le_trans h2 h1⟩
      exact List.sorted_insertionSort _ _
    · rw [hperm.length_eq, List.length_map]
      rfl
    · simp only [GetValueCountsTool.execute, hdf]
      rw [if_neg (not_not_intro hmem)]

/-- C8 witness: with the default configuration `get_value_counts` is not
available, while executing the tool directly on the `dept` column of
`dfDept` reports the claimed frequency-count structure. -/
theorem c8_witness :
    "get_value_counts" ∉ ToolManager.availableTools {} ∧
    loaderDept.dataframe = some dfDept ∧
    "dept" ∈ dfDept.cols ∧
    ((∀ v ∈ nonNullCells (dfDept.columnValues "dept"),
        (v, (nonNullCells (dfDept.columnValues "dept")).count v) ∈
          valueCounts (dfDept.columnValues "dept")) ∧
     (∀ p ∈ valueCounts (dfDept.columnValues "dept"),
        p.1 ∈ nonNullCells (dfDept.columnValues "dept") ∧
          p.2 = (nonNullCells (dfDept.columnValues "dept")).count p.1) ∧
     ((valueCounts (dfDept.columnValues "dept")).map Prod.fst).Nodup ∧
     List.Sorted (fun p q : Value × Nat => q.2 ≤ p.2)
       (valueCounts (dfDept.columnValues "dept")) ∧
     (valueCounts (dfDept.columnValues "dept")).length =
       seriesNunique (dfDept.columnValues "dept") ∧
     GetValueCountsTool.execute loaderDept "dept" =
       (if (valueCounts (dfDept.columnValues "dept")).length > 20 then
         "Top 20 values in '" ++ "dept" ++ "' (out of " ++
           toString (valueCounts (dfDept.columnValues "dept")).length ++
           " unique values):\n\n" ++
           renderCounts ((valueCounts (dfDept.columnValues "dept")).take 20)
       else
         "Value counts for '" ++ "dept" ++ "':\n\n" ++
           renderCounts (valueCounts (dfDept.columnValues "dept")))) :=
  ⟨c8_value_counts.1 {}, rfl, by decide,
   c8_value_counts.2 loaderDept dfDept "dept" rfl (by decide)⟩

/-- C10 witness: the context message injected into `memSmall` is present
before and removed by the overflow-triggering third interaction, and the
rebuilt chat history is exactly the pairs of the retained entries. -/
theorem c10_witness :
    (memSmall.set_csv_context "people.csv" "3 rows").chat_memory =
      memSmall.chat_memory ++ [ChatMessage.ai (csvContextMessage "people.csv" "3 rows")] ∧
    memCtx.config.max_interactions ≤ memCtx.conversation_history.length ∧
    ((memCtx.add_interaction 3 "q3" "a3" []).chat_memory =
       (takeLast 10 (memCtx.add_interaction 3 "q3" "a3" []).conversation_history).flatMap
         entryMessages ∧
     (∀ msg : ChatMessage,
        (∀ e ∈ (memCtx.add_interaction 3 "q3" "a3" []).conversation_history,
          msg ≠ ChatMessage.human e.human_message ∧ msg ≠ ChatMessage.ai e.ai_response) →
        msg ∉ (memCtx.add_interaction 3 "q3" "a3" []).chat_memory)) ∧
    ChatMessage.ai (csvContextMessage "people.csv" "3 rows") ∉
      (memCtx.add_interaction 3 "q3" "a3" []).chat_memory :=
  ⟨c10_rebuild_drops_context.1 memSmall "people.csv" "3 rows",
   by decide,
   c10_rebuild_drops_context.2.1 memCtx 3 "q3" "a3" [] (by decide),
   (c10_rebuild_drops_context.2.1 memCtx 3 "q3" "a3" [] (by decide)).2
     (ChatMessage.ai (csvContextMessage "people.csv" "3 rows")) (by decide)⟩
